import Mathlib

/-!
Verification development for the cloth-simulation core (ClothSystem.cpp).

The simulation is embedded shallowly: glm float vectors become exact real
3-vectors, glm::length becomes Real.sqrt of the dot product, the process-wide
RNG used for wind turbulence becomes an explicit stream of real values carried
in the state, and the function-local static variables of updateObjectMovement
become explicit state fields.  Container mutation through indices is modelled
with List.set / List.getD.
-/

namespace ClothSim

noncomputable section

/-- Real 3-vector, modelling glm::vec3 with exact real arithmetic. -/
@[ext]
structure Vec3 where
  x : ℝ
  y : ℝ
  z : ℝ

instance : Zero Vec3 := ⟨⟨0, 0, 0⟩⟩

instance : Add Vec3 := ⟨fun a b => ⟨a.x + b.x, a.y + b.y, a.z + b.z⟩⟩

instance : Sub Vec3 := ⟨fun a b => ⟨a.x - b.x, a.y - b.y, a.z - b.z⟩⟩

instance : Neg Vec3 := ⟨fun a => ⟨-a.x, -a.y, -a.z⟩⟩

instance : SMul ℝ Vec3 := ⟨fun r a => ⟨r * a.x, r * a.y, r * a.z⟩⟩

/-- Dot product, modelling glm::dot. -/
def Vec3.dot (a b : Vec3) : ℝ := a.x * b.x + a.y * b.y + a.z * b.z

/-- Cross product, modelling glm::cross. -/
def Vec3.cross (a b : Vec3) : Vec3 :=
  ⟨a.y * b.z - a.z * b.y, a.z * b.x - a.x * b.z, a.x * b.y - a.y * b.x⟩

/-- Euclidean length, modelling glm::length. -/
def Vec3.norm (v : Vec3) : ℝ := Real.sqrt (Vec3.dot v v)

/-- Unit vector in the direction of v, modelling glm::normalize. -/
def Vec3.normalize (v : Vec3) : Vec3 := (1 / Vec3.norm v) • v

/-- Particle record from ClothSystem.h. -/
structure Particle where
  position : Vec3
  oldPosition : Vec3
  velocity : Vec3
  force : Vec3
  mass : ℝ
  pinned : Bool
  active : Bool

/-- Junk particle returned by out-of-range reads; marked inactive. -/
def defaultParticle : Particle :=
  { position := 0, oldPosition := 0, velocity := 0, force := 0,
    mass := 1, pinned := false, active := false }

/-- Spring class tags from ClothSystem.h. -/
inductive SpringType where
  | STRUCTURAL
  | SHEAR
  | BEND
deriving DecidableEq

/-- Spring record from ClothSystem.h. -/
structure Spring where
  particle1 : ℕ
  particle2 : ℕ
  restLength : ℝ
  stiffness : ℝ
  type : SpringType
  active : Bool

/-- Junk spring returned by out-of-range reads; marked inactive. -/
def defaultSpring : Spring :=
  { particle1 := 0, particle2 := 0, restLength := 0, stiffness := 0,
    type := .STRUCTURAL, active := false }

/-- CollisionSphere record from ClothSystem.h. -/
structure CollisionSphere where
  center : Vec3
  radius : ℝ

/-- Junk sphere returned by out-of-range reads. -/
def defaultSphere : CollisionSphere := { center := 0, radius := 0 }

/-- Simulation modes from ClothSystem.h. -/
inductive SimulationMode where
  | TEAR
  | COLLISION
  | FLAG

/-- The full mutable state of a ClothSystem object.  The fields mirror the
private members of the C++ class; omStart / omAngle / omForward mirror the
function-local statics of updateObjectMovement (omStart is none before the
first call that reaches the static initializer), and rng / rngIdx model the
process-wide mt19937 turbulence source as an explicit stream. -/
structure ClothSystem where
  particles : List Particle
  springs : List Spring
  spheres : List CollisionSphere
  gravity : ℝ
  damping : ℝ
  windStrength : ℝ
  tearThreshold : ℝ
  elapsedTime : ℝ
  windDirection : Vec3
  gridWidth : ℕ
  gridHeight : ℕ
  clothWidth : ℝ
  clothHeight : ℝ
  objectMoveTime : ℝ
  windVariationTime : ℝ
  vertices : List ℝ
  indices : List ℕ
  omStart : Option Vec3
  omAngle : ℝ
  omForward : Bool
  rng : ℕ → ℝ
  rngIdx : ℕ

/-- fixedTimeStep constant from ClothSystem.h. -/
def fixedTimeStep : ℝ := 1 / 60

/-- objectMoveSpeed member (never mutated). -/
def objectMoveSpeed : ℝ := 0.8

/-- objectMoveRange member (never mutated). -/
def objectMoveRange : ℝ := 8

/-- windVariationStrength member (never mutated). -/
def windVariationStrength : ℝ := 0.3

/-- One grid particle, from the particle-creation loop of createClothGrid:
position on the planar lattice, top row (y = gridHeight-1) pinned. -/
def mkGridParticle (W H : ℕ) (cw ch : ℝ) (x y : ℕ) : Particle :=
  let px := ((x : ℝ) / ((W : ℝ) - 1)) * cw - cw * 0.5
  let py := ((y : ℝ) / ((H : ℝ) - 1)) * ch
  { position := ⟨px, py, 0⟩, oldPosition := ⟨px, py, 0⟩, velocity := 0, force := 0,
    mass := 1, pinned := decide (y = H - 1), active := true }

/-- The particle grid in row-major order (outer loop y, inner loop x). -/
def gridParticles (W H : ℕ) (cw ch : ℝ) : List Particle :=
  (List.range H).flatMap fun y => (List.range W).map fun x => mkGridParticle W H cw ch x y

/-- The springs created at grid cell (x, y) by createClothGrid, in source
order: structural right/below, shear down-right/down-left, bend two-right /
two-below.  Rest length is the distance between the endpoint positions. -/
def springsAt (W H : ℕ) (ps : List Particle) (x y : ℕ) : List Spring :=
  let current := y * W + x
  let mk : ℕ → ℝ → SpringType → Spring := fun other k t =>
    { particle1 := current, particle2 := other,
      restLength := Vec3.norm ((ps.getD other defaultParticle).position -
                               (ps.getD current defaultParticle).position),
      stiffness := k, type := t, active := true }
  (if x + 1 < W then [mk (y * W + (x + 1)) 0.7 .STRUCTURAL] else []) ++
  (if y + 1 < H then [mk ((y + 1) * W + x) 0.7 .STRUCTURAL] else []) ++
  (if x + 1 < W ∧ y + 1 < H then [mk ((y + 1) * W + (x + 1)) 0.3 .SHEAR] else []) ++
  (if 0 < x ∧ y + 1 < H then [mk ((y + 1) * W + (x - 1)) 0.3 .SHEAR] else []) ++
  (if x + 2 < W then [mk (y * W + (x + 2)) 0.15 .BEND] else []) ++
  (if y + 2 < H then [mk ((y + 2) * W + x) 0.15 .BEND] else [])

/-- All springs of the grid, iterating y then x as in createClothGrid. -/
def gridSprings (W H : ℕ) (ps : List Particle) : List Spring :=
  (List.range H).flatMap fun y => (List.range W).flatMap fun x => springsAt W H ps x y

/-- The neighbor-offset table of calculateNormal. -/
def normalOffsets : List (ℤ × ℤ) :=
  [(1, 0), (-1, 0), (0, 1), (0, -1), (1, 1), (-1, -1), (1, -1), (-1, 1)]

/-- calculateNormal: average of cross products over consecutive valid
neighbor-offset pairs, renormalized; default normal (0,0,1) otherwise. -/
def calculateNormal (W H : ℕ) (ps : List Particle) (x y : ℕ) : Vec3 :=
  let index := y * W + x
  let p := ps.getD index defaultParticle
  if p.active = false then ⟨0, 0, 1⟩ else
  let step : Vec3 × ℕ → ℕ → Vec3 × ℕ := fun acc i =>
    let o1 := normalOffsets.getD i (0, 0)
    let o2 := normalOffsets.getD (i + 1) (0, 0)
    let x1 : ℤ := (x : ℤ) + o1.1
    let y1 : ℤ := (y : ℤ) + o1.2
    let x2 : ℤ := (x : ℤ) + o2.1
    let y2 : ℤ := (y : ℤ) + o2.2
    if 0 ≤ x1 ∧ x1 < (W : ℤ) ∧ 0 ≤ y1 ∧ y1 < (H : ℤ) ∧
       0 ≤ x2 ∧ x2 < (W : ℤ) ∧ 0 ≤ y2 ∧ y2 < (H : ℤ) then
      let p1 := ps.getD (y1 * (W : ℤ) + x1).toNat defaultParticle
      let p2 := ps.getD (y2 * (W : ℤ) + x2).toNat defaultParticle
      if p1.active = true ∧ p2.active = true then
        (acc.1 + Vec3.cross (p1.position - p.position) (p2.position - p.position), acc.2 + 1)
      else acc
    else acc
  let r := (List.range 7).foldl step (0, 0)
  if 0 < r.2 then Vec3.normalize r.1 else ⟨0, 0, 1⟩

/-- Accumulator of the vertex-building loop of updateVertexData: the
grid-to-vertex remap table (none standing for the -1 sentinel), the running
vertex count, and the interleaved vertex buffer. -/
structure VertexBuild where
  g2v : List (Option ℕ)
  count : ℕ
  verts : List ℝ

/-- One iteration of the vertex loop of updateVertexData at grid cell (x, y):
skip inactive particles, otherwise assign the next compacted vertex slot and
append position, smooth normal, and texture coordinates. -/
def vertexStep (W H : ℕ) (ps : List Particle) (acc : VertexBuild) (xy : ℕ × ℕ) : VertexBuild :=
  let x := xy.1
  let y := xy.2
  let gridIndex := y * W + x
  let p := ps.getD gridIndex defaultParticle
  if p.active = false then acc else
  let n := calculateNormal W H ps x y
  { g2v := acc.g2v.set gridIndex (some acc.count)
  , count := acc.count + 1
  , verts := acc.verts ++
      [p.position.x, p.position.y, p.position.z, n.x, n.y, n.z,
       (x : ℝ) / ((W : ℝ) - 1), (y : ℝ) / ((H : ℝ) - 1)] }

/-- The grid cells in loop order (outer y, inner x). -/
def gridPairs (W H : ℕ) : List (ℕ × ℕ) :=
  (List.range H).flatMap fun y => (List.range W).map fun x => (x, y)

/-- The vertex loop of updateVertexData, starting from an all-sentinel remap
table of size gridWidth * gridHeight. -/
def buildVertices (W H : ℕ) (ps : List Particle) : VertexBuild :=
  (gridPairs W H).foldl (vertexStep W H ps) ⟨List.replicate (W * H) none, 0, []⟩

/-- The triangle indices contributed by the grid quad at (x, y): six compacted
indices when all four corner particles are active and have valid remap
entries, nothing otherwise. -/
def quadIndices (W : ℕ) (ps : List Particle) (g2v : List (Option ℕ)) (x y : ℕ) : List ℕ :=
  let topLeft := y * W + x
  let topRight := y * W + (x + 1)
  let bottomLeft := (y + 1) * W + x
  let bottomRight := (y + 1) * W + (x + 1)
  if (ps.getD topLeft defaultParticle).active = true ∧
     (ps.getD topRight defaultParticle).active = true ∧
     (ps.getD bottomLeft defaultParticle).active = true ∧
     (ps.getD bottomRight defaultParticle).active = true ∧
     g2v.getD topLeft none ≠ none ∧ g2v.getD topRight none ≠ none ∧
     g2v.getD bottomLeft none ≠ none ∧ g2v.getD bottomRight none ≠ none then
    [(g2v.getD topLeft none).getD 0, (g2v.getD bottomLeft none).getD 0,
     (g2v.getD topRight none).getD 0,
     (g2v.getD topRight none).getD 0, (g2v.getD bottomLeft none).getD 0,
     (g2v.getD bottomRight none).getD 0]
  else []

/-- The index loop of updateVertexData over all grid quads. -/
def meshIndices (W H : ℕ) (ps : List Particle) (g2v : List (Option ℕ)) : List ℕ :=
  (List.range (H - 1)).flatMap fun y =>
    (List.range (W - 1)).flatMap fun x => quadIndices W ps g2v x y

/-- updateVertexData: rebuild the derived vertex and index buffers from
scratch out of the live particle state. -/
def ClothSystem.updateVertexData (s : ClothSystem) : ClothSystem :=
  let vb := buildVertices s.gridWidth s.gridHeight s.particles
  { s with vertices := vb.verts
         , indices := meshIndices s.gridWidth s.gridHeight s.particles vb.g2v }

/-- createClothGrid: clear and rebuild the particle and spring containers from
the grid parameters, then rebuild the derived mesh. -/
def ClothSystem.createClothGrid (s : ClothSystem) : ClothSystem :=
  let ps := gridParticles s.gridWidth s.gridHeight s.clothWidth s.clothHeight
  ClothSystem.updateVertexData
    { s with particles := ps, springs := gridSprings s.gridWidth s.gridHeight ps }

/-- reset: full rebuild of the grid. -/
def ClothSystem.reset (s : ClothSystem) : ClothSystem := ClothSystem.createClothGrid s

/-- The ClothSystem constructor: store the grid parameters and member default
initializers, then build the grid.  The turbulence stream is a parameter. -/
def ClothSystem.init (rng : ℕ → ℝ) (width height : ℕ) (w h : ℝ) : ClothSystem :=
  ClothSystem.createClothGrid
    { particles := [], springs := [], spheres := []
    , gravity := -9.81, damping := 0.99, windStrength := 0, tearThreshold := 2
    , elapsedTime := 0, windDirection := ⟨1, 0, 0.5⟩
    , gridWidth := width, gridHeight := height, clothWidth := w, clothHeight := h
    , objectMoveTime := 4, windVariationTime := 0
    , vertices := [], indices := []
    , omStart := none, omAngle := 0, omForward := true
    , rng := rng, rngIdx := 0 }

/-- The turbulence vector drawn in applyWindForce: three consecutive stream
values scaled per axis by 0.3 / 0.2 / 0.3. -/
def windTurbulence (rng : ℕ → ℝ) (k : ℕ) : Vec3 :=
  ⟨rng k * 0.3, rng (k + 1) * 0.2, rng (k + 2) * 0.3⟩

/-- The perturbed wind vector of applyWindForce: direction times strength,
plus the turbulence vector times strength. -/
def windVector (wd : Vec3) (ws : ℝ) (rng : ℕ → ℝ) (k : ℕ) : Vec3 :=
  ws • wd + ws • windTurbulence rng k

/-- The relative velocity between the perturbed wind and the particle. -/
def windRelativeVelocity (wd : Vec3) (ws : ℝ) (rng : ℕ → ℝ) (k : ℕ) (p : Particle) : Vec3 :=
  windVector wd ws rng k - p.velocity

/-- applyWindForce: quadratic drag along the normalized relative velocity,
scaled by the fixed drag coefficient and the particle mass. -/
def applyWindForce (wd : Vec3) (ws : ℝ) (rng : ℕ → ℝ) (k : ℕ) (p : Particle) : Particle :=
  let rel := windRelativeVelocity wd ws rng k p
  let velocityMagnitude := Vec3.norm rel
  if 0 < velocityMagnitude then
    let normalizedVelocity := (1 / velocityMagnitude) • rel
    let dragCoefficient : ℝ := 0.1
    let windForce := (velocityMagnitude * velocityMagnitude * dragCoefficient) • normalizedVelocity
    { p with force := p.force + p.mass • windForce }
  else p

/-- The particle loop of applyForces, threading the turbulence-stream cursor:
skip inactive or pinned particles; otherwise reset force to gravity and, when
wind strength is positive, add the wind force (consuming three stream
values). -/
def applyForcesGo (g ws : ℝ) (wd : Vec3) (rng : ℕ → ℝ) :
    List Particle → ℕ → List Particle × ℕ
  | [], k => ([], k)
  | p :: rest, k =>
    if p.active = false ∨ p.pinned = true then
      let r := applyForcesGo g ws wd rng rest k
      (p :: r.1, r.2)
    else
      let p1 : Particle := { p with force := ⟨0, g * p.mass, 0⟩ }
      let pk : Particle × ℕ := if 0 < ws then (applyWindForce wd ws rng k p1, k + 3) else (p1, k)
      let r := applyForcesGo g ws wd rng rest pk.2
      (pk.1 :: r.1, r.2)

/-- applyForces member function. -/
def ClothSystem.applyForces (s : ClothSystem) : ClothSystem :=
  let r := applyForcesGo s.gravity s.windStrength s.windDirection s.rng s.particles s.rngIdx
  { s with particles := r.1, rngIdx := r.2 }

/-- Verlet step for one particle: pinned or inactive particles are skipped. -/
def integrateParticle (damping dt : ℝ) (p : Particle) : Particle :=
  if p.pinned = true ∨ p.active = false then p else
  let acceleration := (1 / p.mass) • p.force
  let newPosition := p.position + damping • (p.position - p.oldPosition) +
                     (dt * dt) • acceleration
  { p with oldPosition := p.position, position := newPosition }

/-- integrateVerlet member function. -/
def ClothSystem.integrateVerlet (dt : ℝ) (s : ClothSystem) : ClothSystem :=
  { s with particles := s.particles.map (integrateParticle s.damping dt) }

/-- One spring of the constraint-relaxation loop: skip inactive springs,
springs with an inactive endpoint, and degenerate separations; tear the spring
when stretched past restLength * tearThreshold; otherwise move the unpinned
endpoints toward the rest length, weighted by the other endpoint's mass. -/
def satisfyOne (tearThreshold : ℝ) (ps : List Particle) (sp : Spring) :
    Spring × List Particle :=
  if sp.active = false then (sp, ps) else
  let p1 := ps.getD sp.particle1 defaultParticle
  let p2 := ps.getD sp.particle2 defaultParticle
  if p1.active = false ∨ p2.active = false then (sp, ps) else
  let delta := p2.position - p1.position
  let distance := Vec3.norm delta
  if distance < 1e-6 then (sp, ps) else
  if sp.restLength * tearThreshold < distance then ({ sp with active := false }, ps) else
  let difference := (sp.restLength - distance) / distance
  let translate := (difference * sp.stiffness) • delta
  let totalMass := p1.mass + p2.mass
  let ratio1 := p2.mass / totalMass
  let ratio2 := p1.mass / totalMass
  let ps1 := if p1.pinned = true then ps
             else ps.set sp.particle1 { p1 with position := p1.position - ratio1 • translate }
  let ps2 := if p2.pinned = true then ps1
             else ps1.set sp.particle2 { p2 with position := p2.position + ratio2 • translate }
  (sp, ps2)

/-- The spring loop of satisfyConstraints, processed in container order,
reading the particle state left behind by the previous springs. -/
def satisfyFold (tearThreshold : ℝ) :
    List Spring → List Particle → List Spring × List Particle
  | [], ps => ([], ps)
  | sp :: rest, ps =>
    let r1 := satisfyOne tearThreshold ps sp
    let r2 := satisfyFold tearThreshold rest r1.2
    (r1.1 :: r2.1, r2.2)

/-- satisfyConstraints member function (one relaxation pass). -/
def ClothSystem.satisfyConstraints (s : ClothSystem) : ClothSystem :=
  let r := satisfyFold s.tearThreshold s.springs s.particles
  { s with springs := r.1, particles := r.2 }

/-- Collision response of one particle against one sphere: on penetration,
project to the sphere surface along the outward normal (fixed fallback normal
at the center), damp the normal and tangential Verlet velocity components, and
re-derive oldPosition. -/
def sphereCollide (p : Particle) (sphere : CollisionSphere) : Particle :=
  let diff := p.position - sphere.center
  let distance := Vec3.norm diff
  if distance < sphere.radius then
    let normal := if 1e-6 < distance then (1 / distance) • diff else ⟨0, 1, 0⟩
    let newPos := sphere.center + sphere.radius • normal
    let velocity := newPos - p.oldPosition
    let vn := Vec3.dot velocity normal
    let vNormal := vn • normal
    let vTangent := velocity - vNormal
    let bounce : ℝ := 0.2
    let friction : ℝ := 0.9
    let newVelocity := friction • vTangent - bounce • vNormal
    { p with position := newPos, oldPosition := newPos - newVelocity }
  else p

/-- Ground-plane clamp at y = -5 with velocity damping factor 0.4. -/
def groundCollide (p : Particle) : Particle :=
  if p.position.y < -5 then
    let newPos : Vec3 := ⟨p.position.x, -5, p.position.z⟩
    let velocity := newPos - p.oldPosition
    { p with position := newPos, oldPosition := newPos - (0.4 : ℝ) • velocity }
  else p

/-- Per-particle body of handleCollisions: inactive particles are skipped;
active ones are corrected against every sphere in order, then clamped to the
ground plane. -/
def collideParticle (spheres : List CollisionSphere) (p : Particle) : Particle :=
  if p.active = false then p else
  groundCollide (spheres.foldl sphereCollide p)

/-- handleCollisions member function. -/
def ClothSystem.handleCollisions (s : ClothSystem) : ClothSystem :=
  { s with particles := s.particles.map (collideParticle s.spheres) }

/-- One fixed physics step of the update loop: forces, Verlet integration,
three constraint passes, collisions. -/
def ClothSystem.substep (s : ClothSystem) : ClothSystem :=
  ClothSystem.handleCollisions
    (ClothSystem.satisfyConstraints
      (ClothSystem.satisfyConstraints
        (ClothSystem.satisfyConstraints
          (ClothSystem.integrateVerlet fixedTimeStep (ClothSystem.applyForces s)))))

/-- Iterated fixed steps. -/
def ClothSystem.stepN : ℕ → ClothSystem → ClothSystem
  | 0, s => s
  | n + 1, s => ClothSystem.stepN n (ClothSystem.substep s)

/-- updateObjectMovement: scripted patrol of the first collision sphere,
forward along -Z then a semicircle back.  The C++ statics startPos, angle and
goingForward live in the omStart / omAngle / omForward fields; startPos is
captured from the first sphere on the first call that reaches it. -/
def ClothSystem.updateObjectMovement (dt : ℝ) (s : ClothSystem) : ClothSystem :=
  match s.spheres with
  | [] => s
  | sp0 :: rest =>
    let startPos := s.omStart.getD sp0.center
    let t := s.objectMoveTime + dt * objectMoveSpeed
    let radius := objectMoveRange * 0.5
    if s.omForward = true then
      let z1 := startPos.z - t
      let c1 : Vec3 := ⟨sp0.center.x, sp0.center.y, z1⟩
      if z1 ≤ startPos.z - objectMoveRange then
        { s with spheres := { sp0 with center := c1 } :: rest, objectMoveTime := t
               , omStart := some startPos, omForward := false, omAngle := 0 }
      else
        { s with spheres := { sp0 with center := c1 } :: rest, objectMoveTime := t
               , omStart := some startPos }
    else
      let a := s.omAngle + dt * objectMoveSpeed
      let cx := startPos.x + radius * Real.sin a
      let cz := (startPos.z - objectMoveRange) + radius * (1 - Real.cos a)
      let c : Vec3 := ⟨cx, startPos.y, cz⟩
      if 3.14159 ≤ a then
        { s with spheres := { sp0 with center := startPos } :: rest, objectMoveTime := 0
               , omStart := some startPos, omAngle := a, omForward := true }
      else
        { s with spheres := { sp0 with center := c } :: rest, objectMoveTime := t
               , omStart := some startPos, omAngle := a }

/-- updateWindVariation: multi-frequency sinusoidal jitter of the wind
direction, active only when wind strength is at least 1. -/
def ClothSystem.updateWindVariation (dt : ℝ) (s : ClothSystem) : ClothSystem :=
  if s.windStrength < 1 then s else
  let t := s.windVariationTime + dt * 3
  let variationX := Real.sin (t * 1.5) * windVariationStrength
  let variationY := Real.sin (t * 2.3) * windVariationStrength * 0.5
  let variationZ := Real.cos (t * 1.8) * windVariationStrength * 0.3
  let baseWind := Vec3.normalize ⟨0, 0, -1⟩
  let variedWind := baseWind + ⟨variationX, variationY, variationZ⟩
  { s with windVariationTime := t, windDirection := Vec3.normalize variedWind }

/-- update(deltaTime): accumulate elapsed time, drain it in whole fixed steps,
then run the per-frame obstacle and wind animations and rebuild the mesh. -/
def ClothSystem.update (dt : ℝ) (s : ClothSystem) : ClothSystem :=
  let e := s.elapsedTime + dt
  let n := Nat.floor (e / fixedTimeStep)
  let s1 := ClothSystem.stepN n { s with elapsedTime := e - n * fixedTimeStep }
  ClothSystem.updateVertexData
    (ClothSystem.updateWindVariation dt (ClothSystem.updateObjectMovement dt s1))

/-- addSphere member function. -/
def ClothSystem.addSphere (center : Vec3) (radius : ℝ) (s : ClothSystem) : ClothSystem :=
  { s with spheres := s.spheres ++ [{ center := center, radius := radius }] }

/-- clearCollisionObjects member function. -/
def ClothSystem.clearCollisionObjects (s : ClothSystem) : ClothSystem :=
  { s with spheres := [] }

/-- The top-row pinning loop shared by the TEAR and FLAG presets. -/
def pinTopRow (s : ClothSystem) : ClothSystem :=
  let step : List Particle → ℕ → List Particle := fun ps x =>
    let i := (s.gridHeight - 1) * s.gridWidth + x
    ps.set i { ps.getD i defaultParticle with pinned := true }
  { s with particles := (List.range s.gridWidth).foldl step s.particles }

/-- setMode: full reset, then the mode-specific preset. -/
def ClothSystem.setMode (mode : SimulationMode) (s : ClothSystem) : ClothSystem :=
  let r := ClothSystem.reset s
  match mode with
  | .TEAR =>
      pinTopRow { ClothSystem.clearCollisionObjects r with windStrength := 0 }
  | .COLLISION =>
      let r1 := ClothSystem.addSphere ⟨0, 1, 6⟩ 0.8 (ClothSystem.clearCollisionObjects r)
      let r2 := { r1 with windStrength := 0 }
      let i1 := (r2.gridHeight - 1) * r2.gridWidth
      let i2 := (r2.gridHeight - 1) * r2.gridWidth + (r2.gridWidth - 1)
      let ps1 := r2.particles.set i1 { r2.particles.getD i1 defaultParticle with pinned := true }
      let ps2 := ps1.set i2 { ps1.getD i2 defaultParticle with pinned := true }
      { r2 with particles := ps2 }
  | .FLAG =>
      pinTopRow { ClothSystem.clearCollisionObjects r with
                    windStrength := 6, windDirection := Vec3.normalize ⟨0, 0, -1⟩ }

/-- One particle index of the handleMouseInteraction loop: an active particle
within the tear radius of the pointer is deactivated together with every
spring touching it. -/
def hmiStep (mousePos : Vec3) (st : List Particle × List Spring) (i : ℕ) :
    List Particle × List Spring :=
  let p := st.1.getD i defaultParticle
  if p.active = false then st else
  let distance := Vec3.norm (p.position - mousePos)
  if distance < 0.08 then
    (st.1.set i { p with active := false },
     st.2.map fun sp =>
       if sp.particle1 = i ∨ sp.particle2 = i then { sp with active := false } else sp)
  else st

/-- handleMouseInteraction: no-op unless tearing; otherwise run the tear loop
over all particle indices. -/
def ClothSystem.handleMouseInteraction (mousePos : Vec3) (tearing : Bool)
    (s : ClothSystem) : ClothSystem :=
  if tearing = false then s else
  let r := (List.range s.particles.length).foldl (hmiStep mousePos) (s.particles, s.springs)
  { s with particles := r.1, springs := r.2 }

/-! Proof-support definitions. -/

/-- The all-zero turbulence stream, used for concrete instances. -/
def zeroStream : ℕ → ℝ := fun _ => 0

/-- Two particles agree on every field except possibly position. -/
def samePart (p q : Particle) : Prop :=
  q.oldPosition = p.oldPosition ∧ q.velocity = p.velocity ∧ q.force = p.force ∧
  q.mass = p.mass ∧ q.pinned = p.pinned ∧ q.active = p.active

/-- Two particles agree on every field except possibly force. -/
def sameButForce (p q : Particle) : Prop :=
  q.position = p.position ∧ q.oldPosition = p.oldPosition ∧ q.velocity = p.velocity ∧
  q.mass = p.mass ∧ q.pinned = p.pinned ∧ q.active = p.active

/-- Particle with its active flag cleared, as written by the tear loop. -/
def deactivateParticle (p : Particle) : Particle := { p with active := false }

/-- Spring with its active flag cleared, as written by tearing. -/
def deactivateSpring (sp : Spring) : Spring := { sp with active := false }

/-- Whether index i triggers the tear loop of handleMouseInteraction on the
original particle list: the particle is active and within the tear radius. -/
def hmiTriggers (mousePos : Vec3) (ps : List Particle) (i : ℕ) : Prop :=
  (ps.getD i defaultParticle).active = true ∧
  Vec3.norm ((ps.getD i defaultParticle).position - mousePos) < 0.08

/-- Whether a spring carries the STRUCTURAL tag. -/
def isStructural (sp : Spring) : Bool := decide (sp.type = SpringType.STRUCTURAL)

/-- Whether a spring carries the SHEAR tag. -/
def isShear (sp : Spring) : Bool := decide (sp.type = SpringType.SHEAR)

/-- Whether a spring carries the BEND tag. -/
def isBend (sp : Spring) : Bool := decide (sp.type = SpringType.BEND)

/-- Two particles agree on velocity, mass, pinned and active (the fields no
stage of the physics substep ever writes). -/
def sameVMPA (p q : Particle) : Prop :=
  q.velocity = p.velocity ∧ q.mass = p.mass ∧ q.pinned = p.pinned ∧ q.active = p.active

/-- Every particle slot (in or out of range) carries zero velocity. -/
def allVelZero (s : ClothSystem) : Prop :=
  ∀ j, (s.particles.getD j defaultParticle).velocity = 0

/-- v is the compacted vertex index assigned by the mesh rebuild to some
currently-active particle of s. -/
def vertexOfActive (s : ClothSystem) (v : ℕ) : Prop :=
  ∃ g, (buildVertices s.gridWidth s.gridHeight s.particles).g2v.getD g none = some v ∧
    (s.particles.getD g defaultParticle).active = true

/-- A 2-by-2 state whose top-left quad has one inactive (torn) corner. -/
def tornQuadState : ClothSystem :=
  { particles := [{ position := ⟨0, 0, 0⟩, oldPosition := ⟨0, 0, 0⟩, velocity := 0,
                    force := 0, mass := 1, pinned := false, active := false },
                  { position := ⟨1, 0, 0⟩, oldPosition := ⟨1, 0, 0⟩, velocity := 0,
                    force := 0, mass := 1, pinned := false, active := true },
                  { position := ⟨0, 1, 0⟩, oldPosition := ⟨0, 1, 0⟩, velocity := 0,
                    force := 0, mass := 1, pinned := true, active := true },
                  { position := ⟨1, 1, 0⟩, oldPosition := ⟨1, 1, 0⟩, velocity := 0,
                    force := 0, mass := 1, pinned := true, active := true }]
  , springs := []
  , spheres := []
  , gravity := -9.81, damping := 0.99, windStrength := 0, tearThreshold := 2
  , elapsedTime := 0, windDirection := ⟨1, 0, 0.5⟩
  , gridWidth := 2, gridHeight := 2, clothWidth := 1, clothHeight := 1
  , objectMoveTime := 4, windVariationTime := 0
  , vertices := [], indices := []
  , omStart := none, omAngle := 0, omForward := true
  , rng := zeroStream, rngIdx := 0 }

/-- Some particle index below k triggers the tear loop and is an endpoint of
the spring stored at slot j. -/
def touchedBelow (mousePos : Vec3) (ps : List Particle) (sps : List Spring)
    (k j : ℕ) : Prop :=
  ∃ i, i < k ∧ hmiTriggers mousePos ps i ∧
    ((sps.getD j defaultSpring).particle1 = i ∨ (sps.getD j defaultSpring).particle2 = i)

/-- A pinned, active particle resting below the ground plane. -/
def pinnedParticle : Particle :=
  { position := ⟨0, -6, 0⟩, oldPosition := ⟨0, -6, 0⟩, velocity := 0,
    force := 0, mass := 1, pinned := true, active := true }

/-- A concrete state whose only particle is pinned, active, and below the
ground plane; used to exercise the collision stage on a pinned particle. -/
def pinnedBelowGroundState : ClothSystem :=
  { particles := [pinnedParticle]
  , springs := [], spheres := []
  , gravity := -9.81, damping := 0.99, windStrength := 0, tearThreshold := 2
  , elapsedTime := 0, windDirection := ⟨1, 0, 0.5⟩
  , gridWidth := 1, gridHeight := 1, clothWidth := 0, clothHeight := 0
  , objectMoveTime := 4, windVariationTime := 0
  , vertices := [], indices := []
  , omStart := none, omAngle := 0, omForward := true
  , rng := zeroStream, rngIdx := 0 }

/-- A concrete state with one pinned particle at the origin and one collision
sphere well away from it. -/
def pinnedSphereState : ClothSystem :=
  { particles := [{ position := ⟨0, 0, 0⟩, oldPosition := ⟨0, 0, 0⟩, velocity := 0,
                    force := 0, mass := 1, pinned := true, active := true }]
  , springs := [], spheres := [{ center := ⟨0, 0, 3⟩, radius := 1 }]
  , gravity := -9.81, damping := 0.99, windStrength := 0, tearThreshold := 2
  , elapsedTime := 0, windDirection := ⟨1, 0, 0.5⟩
  , gridWidth := 1, gridHeight := 1, clothWidth := 0, clothHeight := 0
  , objectMoveTime := 4, windVariationTime := 0
  , vertices := [], indices := []
  , omStart := none, omAngle := 0, omForward := true
  , rng := zeroStream, rngIdx := 0 }

/-- A concrete state with one pinned particle at the origin and no collision
spheres. -/
def pinnedSafeState : ClothSystem :=
  { particles := [{ position := ⟨0, 0, 0⟩, oldPosition := ⟨0, 0, 0⟩, velocity := 0,
                    force := 0, mass := 1, pinned := true, active := true }]
  , springs := [], spheres := []
  , gravity := -9.81, damping := 0.99, windStrength := 0, tearThreshold := 2
  , elapsedTime := 0, windDirection := ⟨1, 0, 0.5⟩
  , gridWidth := 1, gridHeight := 1, clothWidth := 0, clothHeight := 0
  , objectMoveTime := 4, windVariationTime := 0
  , vertices := [], indices := []
  , omStart := none, omAngle := 0, omForward := true
  , rng := zeroStream, rngIdx := 0 }

/-- A concrete state with one active particle resting exactly on the surface
of the single collision sphere; used to exercise the obstacle animation that
runs after the collision stage inside update. -/
def sphereFrontState : ClothSystem :=
  { particles := [{ position := ⟨0, 0, -5⟩, oldPosition := ⟨0, 0, -5⟩, velocity := 0,
                    force := 0, mass := 1, pinned := false, active := true }]
  , springs := [], spheres := [{ center := ⟨0, 0, 0⟩, radius := 5 }]
  , gravity := -9.81, damping := 0.99, windStrength := 0, tearThreshold := 2
  , elapsedTime := 0, windDirection := ⟨1, 0, 0.5⟩
  , gridWidth := 1, gridHeight := 1, clothWidth := 0, clothHeight := 0
  , objectMoveTime := 4, windVariationTime := 0
  , vertices := [], indices := []
  , omStart := none, omAngle := 0, omForward := true
  , rng := zeroStream, rngIdx := 0 }

/-- A concrete state with an inactive (torn) spring, one active and one
inactive particle; used as a generic torn-state instance. -/
def tornState : ClothSystem :=
  { particles := [{ position := ⟨0, 0, 0⟩, oldPosition := ⟨0, 0, 0⟩, velocity := 0,
                    force := 0, mass := 1, pinned := false, active := true },
                  { position := ⟨1, 0, 0⟩, oldPosition := ⟨1, 0, 0⟩, velocity := 0,
                    force := 0, mass := 1, pinned := false, active := false }]
  , springs := [{ particle1 := 0, particle2 := 1, restLength := 1, stiffness := 0.7,
                  type := .STRUCTURAL, active := false }]
  , spheres := []
  , gravity := -9.81, damping := 0.99, windStrength := 0, tearThreshold := 2
  , elapsedTime := 0, windDirection := ⟨1, 0, 0.5⟩
  , gridWidth := 2, gridHeight := 1, clothWidth := 1, clothHeight := 1
  , objectMoveTime := 4, windVariationTime := 0
  , vertices := [], indices := []
  , omStart := none, omAngle := 0, omForward := true
  , rng := zeroStream, rngIdx := 0 }

/-! Component lemmas for Vec3 arithmetic. -/

@[simp]
theorem Vec3.add_def (a b : Vec3) : a + b = ⟨a.x + b.x, a.y + b.y, a.z + b.z⟩ := rfl

@[simp]
theorem Vec3.sub_def (a b : Vec3) : a - b = ⟨a.x - b.x, a.y - b.y, a.z - b.z⟩ := rfl

@[simp]
theorem Vec3.neg_def (a : Vec3) : -a = ⟨-a.x, -a.y, -a.z⟩ := rfl

@[simp]
theorem Vec3.smul_def (r : ℝ) (a : Vec3) : r • a = ⟨r * a.x, r * a.y, r * a.z⟩ := rfl

@[simp]
theorem Vec3.zero_def : (0 : Vec3) = ⟨0, 0, 0⟩ := rfl

theorem Vec3.norm_nonneg (v : Vec3) : 0 ≤ v.norm := Real.sqrt_nonneg _

/-- Compute a vector norm from an exact square. -/
theorem Vec3.norm_eq_of_sq (v : Vec3) (r : ℝ) (h0 : 0 ≤ r) (h : Vec3.dot v v = r ^ 2) :
    v.norm = r := by
  rw [Vec3.norm, h, Real.sqrt_sq h0]

theorem Vec3.norm_smul (r : ℝ) (v : Vec3) : (r • v).norm = |r| * v.norm := by
  have h : Vec3.dot (r • v) (r • v) = r ^ 2 * Vec3.dot v v := by
    simp [Vec3.dot]; ring
  rw [Vec3.norm, h, Real.sqrt_mul (sq_nonneg r), Real.sqrt_sq_eq_abs, Vec3.norm]

/-! Generic list access lemmas. -/

/-- getD after set, with the out-of-range cases resolved. -/
theorem getD_set {α : Type} (l : List α) (i j : ℕ) (a d : α) :
    (l.set i a).getD j d = if i = j ∧ j < l.length then a else l.getD j d := by
  by_cases hj : j < l.length
  · by_cases hij : i = j
    · subst hij
      rw [List.getD_eq_getElem _ _ (by simpa using hj), List.getElem_set_self]
      simp [hj]
    · rw [List.getD_eq_getElem _ _ (by simpa using hj), List.getD_eq_getElem _ _ hj,
        List.getElem_set_ne hij]
      simp [hij]
  · rw [List.getD_eq_default _ _ (by simpa using le_of_not_lt hj),
      List.getD_eq_default _ _ (le_of_not_lt hj)]
    simp [hj]

/-- getD through map, with the out-of-range case resolved. -/
theorem getD_map {α β : Type} (f : α → β) (l : List α) (j : ℕ) (d : α) (d' : β) :
    (l.map f).getD j d' = if j < l.length then f (l.getD j d) else d' := by
  by_cases hj : j < l.length
  · rw [List.getD_eq_getElem _ _ (by simpa using hj), List.getD_eq_getElem _ _ hj,
      List.getElem_map]
    simp [hj]
  · rw [List.getD_eq_default _ _ (by simpa using le_of_not_lt hj)]
    simp [hj]

/-- Membership in a conditional singleton. -/
theorem mem_ite_singleton {α : Type} (a b : α) (c : Prop) [Decidable c] :
    a ∈ (if c then [b] else []) ↔ c ∧ a = b := by
  split_ifs with h <;> simp [h]

/-! Stage lemmas: which state fields each member function touches. -/

theorem applyForces_springs (s : ClothSystem) : (s.applyForces).springs = s.springs := rfl

theorem applyForces_spheres (s : ClothSystem) : (s.applyForces).spheres = s.spheres := rfl

theorem integrateVerlet_springs (dt : ℝ) (s : ClothSystem) :
    (s.integrateVerlet dt).springs = s.springs := rfl

theorem integrateVerlet_spheres (dt : ℝ) (s : ClothSystem) :
    (s.integrateVerlet dt).spheres = s.spheres := rfl

theorem satisfyConstraints_spheres (s : ClothSystem) :
    (s.satisfyConstraints).spheres = s.spheres := rfl

theorem handleCollisions_springs (s : ClothSystem) :
    (s.handleCollisions).springs = s.springs := rfl

theorem handleCollisions_spheres (s : ClothSystem) :
    (s.handleCollisions).spheres = s.spheres := rfl

theorem updateVertexData_particles (s : ClothSystem) :
    (s.updateVertexData).particles = s.particles := rfl

theorem updateVertexData_springs (s : ClothSystem) :
    (s.updateVertexData).springs = s.springs := rfl

theorem updateVertexData_spheres (s : ClothSystem) :
    (s.updateVertexData).spheres = s.spheres := rfl

theorem updateObjectMovement_particles (dt : ℝ) (s : ClothSystem) :
    (s.updateObjectMovement dt).particles = s.particles := by
  unfold ClothSystem.updateObjectMovement
  cases s.spheres <;> simp <;> split_ifs <;> rfl

theorem updateObjectMovement_springs (dt : ℝ) (s : ClothSystem) :
    (s.updateObjectMovement dt).springs = s.springs := by
  unfold ClothSystem.updateObjectMovement
  cases s.spheres <;> simp <;> split_ifs <;> rfl

theorem updateWindVariation_particles (dt : ℝ) (s : ClothSystem) :
    (s.updateWindVariation dt).particles = s.particles := by
  unfold ClothSystem.updateWindVariation
  split_ifs <;> rfl

theorem updateWindVariation_springs (dt : ℝ) (s : ClothSystem) :
    (s.updateWindVariation dt).springs = s.springs := by
  unfold ClothSystem.updateWindVariation
  split_ifs <;> rfl

theorem updateWindVariation_spheres (dt : ℝ) (s : ClothSystem) :
    (s.updateWindVariation dt).spheres = s.spheres := by
  unfold ClothSystem.updateWindVariation
  split_ifs <;> rfl

/-! Spring monotonicity: constraint relaxation only ever clears active
flags, and no other stage of update touches the spring container. -/

theorem satisfyOne_spring_cases (tt : ℝ) (ps : List Particle) (sp : Spring) :
    (satisfyOne tt ps sp).1 = sp ∨ (satisfyOne tt ps sp).1 = deactivateSpring sp := by
  simp only [satisfyOne]
  split_ifs <;> simp [deactivateSpring]

theorem satisfyFold_springs_length (tt : ℝ) :
    ∀ (sps : List Spring) (ps : List Particle),
      (satisfyFold tt sps ps).1.length = sps.length := by
  intro sps
  induction sps with
  | nil => intro ps; rfl
  | cons sp rest ih => intro ps; simp [satisfyFold, ih]

theorem satisfyFold_springs_getD (tt : ℝ) :
    ∀ (sps : List Spring) (ps : List Particle) (j : ℕ),
      (satisfyFold tt sps ps).1.getD j defaultSpring = sps.getD j defaultSpring ∨
      (satisfyFold tt sps ps).1.getD j defaultSpring =
        deactivateSpring (sps.getD j defaultSpring) := by
  intro sps
  induction sps with
  | nil => intro ps j; left; rfl
  | cons sp rest ih =>
    intro ps j
    cases j with
    | zero =>
      simpa [satisfyFold] using satisfyOne_spring_cases tt ps sp
    | succ j =>
      simpa [satisfyFold] using ih (satisfyOne tt ps sp).2 j

/-- getD of an in-range index is a member. -/
theorem getD_mem {α : Type} (l : List α) (j : ℕ) (d : α) (hj : j < l.length) :
    l.getD j d ∈ l := by
  rw [List.getD_eq_getElem _ _ hj]
  exact List.getElem_mem _

/-- An inactive spring slot stays inactive through one relaxation pass. -/
theorem satisfyConstraints_spring_inactive (s : ClothSystem) (j : ℕ)
    (h : (s.springs.getD j defaultSpring).active = false) :
    ((s.satisfyConstraints).springs.getD j defaultSpring).active = false := by
  show ((satisfyFold s.tearThreshold s.springs s.particles).1.getD j defaultSpring).active = false
  rcases satisfyFold_springs_getD s.tearThreshold s.springs s.particles j with h1 | h1
  · rw [h1]; exact h
  · rw [h1, deactivateSpring]

/-- An inactive spring slot stays inactive through one fixed physics step. -/
theorem substep_spring_inactive (s : ClothSystem) (j : ℕ)
    (h : (s.springs.getD j defaultSpring).active = false) :
    ((s.substep).springs.getD j defaultSpring).active = false := by
  unfold ClothSystem.substep
  rw [handleCollisions_springs]
  apply satisfyConstraints_spring_inactive
  apply satisfyConstraints_spring_inactive
  apply satisfyConstraints_spring_inactive
  rw [integrateVerlet_springs, applyForces_springs]
  exact h

theorem stepN_spring_inactive (n : ℕ) :
    ∀ (s : ClothSystem) (j : ℕ),
      (s.springs.getD j defaultSpring).active = false →
      ((ClothSystem.stepN n s).springs.getD j defaultSpring).active = false := by
  induction n with
  | zero => intro s j h; exact h
  | succ n ih =>
    intro s j h
    exact ih _ j (substep_spring_inactive s j h)

/-- An inactive spring slot stays inactive through one whole update call. -/
theorem update_spring_inactive (dt : ℝ) (s : ClothSystem) (j : ℕ)
    (h : (s.springs.getD j defaultSpring).active = false) :
    ((s.update dt).springs.getD j defaultSpring).active = false := by
  unfold ClothSystem.update
  rw [updateVertexData_springs, updateWindVariation_springs, updateObjectMovement_springs]
  exact stepN_spring_inactive _ _ j h

/-! The springs produced by the grid builder are all active. -/

theorem springsAt_active (W H : ℕ) (ps : List Particle) (x y : ℕ) :
    ∀ sp ∈ springsAt W H ps x y, sp.active = true := by
  intro sp hsp
  simp only [springsAt, List.mem_append, mem_ite_singleton] at hsp
  rcases hsp with ((((h | h) | h) | h) | h) | h <;> rw [h.2]

theorem gridSprings_active (W H : ℕ) (ps : List Particle) :
    ∀ sp ∈ gridSprings W H ps, sp.active = true := by
  intro sp hsp
  simp only [gridSprings, List.mem_flatMap] at hsp
  obtain ⟨y, _, x, _, hx⟩ := hsp
  exact springsAt_active W H ps x y sp hx

theorem reset_springs_active (s : ClothSystem) (j : ℕ)
    (hj : j < (ClothSystem.reset s).springs.length) :
    ((ClothSystem.reset s).springs.getD j defaultSpring).active = true := by
  exact gridSprings_active s.gridWidth s.gridHeight
    (gridParticles s.gridWidth s.gridHeight s.clothWidth s.clothHeight) _
    (getD_mem _ j _ hj)

/-! Claim C4. -/

/-- C4: once a spring slot is inactive, no sequence of update calls (any
parameters) reactivates it; a reset rebuilds the spring container with every
spring active, and setMode produces exactly the springs of reset. -/
theorem C4_tearing_monotone :
    (∀ (s : ClothSystem) (dts : List ℝ) (j : ℕ),
        (s.springs.getD j defaultSpring).active = false →
        ((dts.foldl (fun st dt => ClothSystem.update dt st) s).springs.getD j
          defaultSpring).active = false) ∧
    (∀ (s : ClothSystem) (j : ℕ),
        j < (ClothSystem.reset s).springs.length →
        ((ClothSystem.reset s).springs.getD j defaultSpring).active = true) ∧
    (∀ (s : ClothSystem) (m : SimulationMode),
        (ClothSystem.setMode m s).springs = (ClothSystem.reset s).springs) := by
  refine ⟨?_, reset_springs_active, ?_⟩
  · intro s dts
    induction dts generalizing s with
    | nil => intro j h; exact h
    | cons dt rest ih =>
      intro j h
      exact ih _ j (update_spring_inactive dt s j h)
  · intro s m
    cases m <;> rfl

/-- Witness for C4 at a concrete torn state: its single spring is inactive,
stays inactive across two update calls, and reset rebuilds an active spring
container. -/
theorem C4_tearing_monotone_witness :
    ((tornState.springs.getD 0 defaultSpring).active = false ∧
      (([(0.05 : ℝ), 1/60].foldl (fun st dt => ClothSystem.update dt st)
        tornState).springs.getD 0 defaultSpring).active = false) ∧
    (0 < (ClothSystem.reset tornState).springs.length ∧
      ((ClothSystem.reset tornState).springs.getD 0 defaultSpring).active = true) ∧
    (ClothSystem.setMode .TEAR tornState).springs =
      (ClothSystem.reset tornState).springs := by
  exact ⟨⟨rfl, C4_tearing_monotone.1 tornState [(0.05 : ℝ), 1/60] 0 rfl⟩,
    ⟨by decide, C4_tearing_monotone.2.1 tornState 0 (by decide)⟩,
    C4_tearing_monotone.2.2 tornState .TEAR⟩

/-! Claim C3. -/

/-- C3: grid dimensions below 2 are NOT rejected at construction time: the
constructor simply runs the grid builder, producing an object (here a 1-by-2
grid yields 2 particles and 1 structural spring); there is no validation and
no failure path in the code. -/
theorem C3_construction_does_not_reject :
    (ClothSystem.init zeroStream 1 2 1 1).particles.length = 2 ∧
    (ClothSystem.init zeroStream 1 2 1 1).springs.length = 1 := by
  constructor <;> rfl

/-! Generic fold / pointwise-preservation helpers. -/

theorem foldl_preserve {σ α : Type} (P : σ → Prop) (f : σ → α → σ)
    (h : ∀ s a, P s → P (f s a)) :
    ∀ (l : List α) (s : σ), P s → P (List.foldl f s l) := by
  intro l
  induction l with
  | nil => intro s hs; exact hs
  | cons a rest ih => intro s hs; exact ih (f s a) (h s a hs)

theorem samePart_refl (p : Particle) : samePart p p := ⟨rfl, rfl, rfl, rfl, rfl, rfl⟩

theorem samePart_trans {p q r : Particle} (h1 : samePart p q) (h2 : samePart q r) :
    samePart p r := by
  obtain ⟨a1, b1, c1, d1, e1, f1⟩ := h1
  obtain ⟨a2, b2, c2, d2, e2, f2⟩ := h2
  exact ⟨a2.trans a1, b2.trans b1, c2.trans c1, d2.trans d1, e2.trans e1, f2.trans f1⟩

theorem sameButForce_refl (p : Particle) : sameButForce p p := ⟨rfl, rfl, rfl, rfl, rfl, rfl⟩

theorem sameButForce_trans {p q r : Particle} (h1 : sameButForce p q) (h2 : sameButForce q r) :
    sameButForce p r := by
  obtain ⟨a1, b1, c1, d1, e1, f1⟩ := h1
  obtain ⟨a2, b2, c2, d2, e2, f2⟩ := h2
  exact ⟨a2.trans a1, b2.trans b1, c2.trans c1, d2.trans d1, e2.trans e1, f2.trans f1⟩

theorem sameVMPA_refl (p : Particle) : sameVMPA p p := ⟨rfl, rfl, rfl, rfl⟩

theorem sameVMPA_trans {p q r : Particle} (h1 : sameVMPA p q) (h2 : sameVMPA q r) :
    sameVMPA p r := by
  obtain ⟨a1, b1, c1, d1⟩ := h1
  obtain ⟨a2, b2, c2, d2⟩ := h2
  exact ⟨a2.trans a1, b2.trans b1, c2.trans c1, d2.trans d1⟩

theorem sameVMPA_of_samePart {p q : Particle} (h : samePart p q) : sameVMPA p q :=
  ⟨h.2.1, h.2.2.2.1, h.2.2.2.2.1, h.2.2.2.2.2⟩

theorem sameVMPA_of_sameButForce {p q : Particle} (h : sameButForce p q) : sameVMPA p q :=
  ⟨h.2.2.1, h.2.2.2.1, h.2.2.2.2.1, h.2.2.2.2.2⟩

/-- Writing a record whose non-position fields match slot i preserves the
pointwise samePart relation to the original list. -/
theorem samePart_set (ps ps' : List Particle) (i : ℕ) (q : Particle)
    (h : ∀ j, samePart (ps.getD j defaultParticle) (ps'.getD j defaultParticle))
    (hq : samePart (ps.getD i defaultParticle) q) :
    ∀ j, samePart (ps.getD j defaultParticle) ((ps'.set i q).getD j defaultParticle) := by
  intro j
  rw [getD_set]
  split_ifs with hc
  · rcases hc with ⟨hij, _⟩
    subst hij
    exact hq
  · exact h j

/-! The constraint pass only moves positions. -/

theorem satisfyOne_samePart (tt : ℝ) (ps : List Particle) (sp : Spring) :
    ∀ j, samePart (ps.getD j defaultParticle)
      ((satisfyOne tt ps sp).2.getD j defaultParticle) := by
  simp only [satisfyOne]
  split_ifs
  all_goals intro j
  any_goals exact samePart_refl _
  all_goals first
    | exact samePart_set _ _ _ _ (fun _ => samePart_refl _)
        (by exact ⟨rfl, rfl, rfl, rfl, rfl, rfl⟩) j
    | exact samePart_set _ _ _ _
        (samePart_set _ _ _ _ (fun _ => samePart_refl _)
          (by exact ⟨rfl, rfl, rfl, rfl, rfl, rfl⟩))
        (by exact ⟨rfl, rfl, rfl, rfl, rfl, rfl⟩) j

theorem satisfyFold_samePart (tt : ℝ) :
    ∀ (sps : List Spring) (ps : List Particle) (j : ℕ),
      samePart (ps.getD j defaultParticle)
        ((satisfyFold tt sps ps).2.getD j defaultParticle) := by
  intro sps
  induction sps with
  | nil => intro ps j; exact samePart_refl _
  | cons sp rest ih =>
    intro ps j
    exact samePart_trans (satisfyOne_samePart tt ps sp j) (ih (satisfyOne tt ps sp).2 j)

theorem satisfyConstraints_samePart (s : ClothSystem) (j : ℕ) :
    samePart (s.particles.getD j defaultParticle)
      ((s.satisfyConstraints).particles.getD j defaultParticle) :=
  satisfyFold_samePart s.tearThreshold s.springs s.particles j

/-! The force pass only writes forces. -/

theorem applyWindForce_sameButForce (wd : Vec3) (ws : ℝ) (rng : ℕ → ℝ) (k : ℕ) (p : Particle) :
    sameButForce p (applyWindForce wd ws rng k p) := by
  simp only [applyWindForce]
  split_ifs <;> exact ⟨rfl, rfl, rfl, rfl, rfl, rfl⟩

theorem applyForcesGo_sameButForce (g ws : ℝ) (wd : Vec3) (rng : ℕ → ℝ) :
    ∀ (l : List Particle) (k j : ℕ),
      sameButForce (l.getD j defaultParticle)
        ((applyForcesGo g ws wd rng l k).1.getD j defaultParticle) := by
  intro l
  induction l with
  | nil => intro k j; exact sameButForce_refl _
  | cons p rest ih =>
    intro k j
    cases j with
    | zero =>
      simp only [applyForcesGo]
      split_ifs with h1 h2
      · exact sameButForce_refl _
      · exact sameButForce_trans ⟨rfl, rfl, rfl, rfl, rfl, rfl⟩
          (applyWindForce_sameButForce wd ws rng k _)
      · exact ⟨rfl, rfl, rfl, rfl, rfl, rfl⟩
    | succ j =>
      simp only [applyForcesGo]
      split_ifs <;> simpa using ih _ j

/-- A pinned slot is left completely untouched by the force pass. -/
theorem applyForcesGo_pinned_id (g ws : ℝ) (wd : Vec3) (rng : ℕ → ℝ) :
    ∀ (l : List Particle) (k j : ℕ),
      (l.getD j defaultParticle).pinned = true →
      (applyForcesGo g ws wd rng l k).1.getD j defaultParticle = l.getD j defaultParticle := by
  intro l
  induction l with
  | nil => intro k j _; rfl
  | cons p rest ih =>
    intro k j hp
    cases j with
    | zero =>
      simp only [List.getD_cons_zero] at hp
      simp only [applyForcesGo]
      split_ifs with h1 h2 <;> first | rfl | exact absurd (Or.inr hp) h1
    | succ j =>
      simp only [List.getD_cons_succ] at hp
      simp only [applyForcesGo]
      split_ifs <;> simpa using ih _ j hp

/-! Per-particle integration and collision bodies: projection facts. -/

theorem getD_map_self {α : Type} (f : α → α) (d : α) (hf : f d = d) (l : List α) (j : ℕ) :
    (l.map f).getD j d = f (l.getD j d) := by
  rw [getD_map f l j d d]
  split_ifs with h
  · rfl
  · rw [List.getD_eq_default _ _ (le_of_not_lt h), hf]

theorem integrateParticle_sameVMPA (damping dt : ℝ) (p : Particle) :
    sameVMPA p (integrateParticle damping dt p) := by
  simp only [integrateParticle]
  split_ifs <;> exact ⟨rfl, rfl, rfl, rfl⟩

theorem integrateParticle_pinned_id (damping dt : ℝ) (p : Particle)
    (h : p.pinned = true) : integrateParticle damping dt p = p := by
  simp only [integrateParticle]
  rw [if_pos (Or.inl h)]

theorem integrateParticle_default (damping dt : ℝ) :
    integrateParticle damping dt defaultParticle = defaultParticle := by
  simp only [integrateParticle]
  split_ifs with h
  · rfl
  · exact absurd (Or.inr rfl) h

theorem sphereCollide_sameVMPA (p : Particle) (sph : CollisionSphere) :
    sameVMPA p (sphereCollide p sph) := by
  simp only [sphereCollide]
  split_ifs <;> exact ⟨rfl, rfl, rfl, rfl⟩

theorem groundCollide_sameVMPA (p : Particle) : sameVMPA p (groundCollide p) := by
  simp only [groundCollide]
  split_ifs <;> exact ⟨rfl, rfl, rfl, rfl⟩

theorem foldl_sphereCollide_sameVMPA :
    ∀ (sphs : List CollisionSphere) (p : Particle),
      sameVMPA p (sphs.foldl sphereCollide p) := by
  intro sphs
  induction sphs with
  | nil => intro p; exact sameVMPA_refl p
  | cons sph rest ih =>
    intro p
    exact sameVMPA_trans (sphereCollide_sameVMPA p sph) (ih (sphereCollide p sph))

theorem collideParticle_sameVMPA (sphs : List CollisionSphere) (p : Particle) :
    sameVMPA p (collideParticle sphs p) := by
  simp only [collideParticle]
  split_ifs with h
  · exact sameVMPA_refl p
  · exact sameVMPA_trans (foldl_sphereCollide_sameVMPA sphs p)
      (groundCollide_sameVMPA _)

theorem collideParticle_default (sphs : List CollisionSphere) :
    collideParticle sphs defaultParticle = defaultParticle := by
  simp only [collideParticle]
  split_ifs with h
  · rfl
  · exact absurd rfl h

/-! Pointwise dynamics invariants across a whole fixed step and update. -/

theorem applyForces_sameVMPA (s : ClothSystem) (j : ℕ) :
    sameVMPA (s.particles.getD j defaultParticle)
      ((s.applyForces).particles.getD j defaultParticle) :=
  sameVMPA_of_sameButForce (applyForcesGo_sameButForce _ _ _ _ s.particles s.rngIdx j)

theorem integrateVerlet_sameVMPA (dt : ℝ) (s : ClothSystem) (j : ℕ) :
    sameVMPA (s.particles.getD j defaultParticle)
      ((s.integrateVerlet dt).particles.getD j defaultParticle) := by
  have h : (s.integrateVerlet dt).particles.getD j defaultParticle =
      integrateParticle s.damping dt (s.particles.getD j defaultParticle) :=
    getD_map_self _ _ (integrateParticle_default s.damping dt) s.particles j
  rw [h]
  exact integrateParticle_sameVMPA s.damping dt _

theorem handleCollisions_sameVMPA (s : ClothSystem) (j : ℕ) :
    sameVMPA (s.particles.getD j defaultParticle)
      ((s.handleCollisions).particles.getD j defaultParticle) := by
  have h : (s.handleCollisions).particles.getD j defaultParticle =
      collideParticle s.spheres (s.particles.getD j defaultParticle) :=
    getD_map_self _ _ (collideParticle_default s.spheres) s.particles j
  rw [h]
  exact collideParticle_sameVMPA s.spheres _

theorem substep_sameVMPA (s : ClothSystem) (j : ℕ) :
    sameVMPA (s.particles.getD j defaultParticle)
      ((s.substep).particles.getD j defaultParticle) := by
  unfold ClothSystem.substep
  refine sameVMPA_trans (applyForces_sameVMPA s j) ?_
  refine sameVMPA_trans (integrateVerlet_sameVMPA fixedTimeStep _ j) ?_
  refine sameVMPA_trans (sameVMPA_of_samePart (satisfyConstraints_samePart _ j)) ?_
  refine sameVMPA_trans (sameVMPA_of_samePart (satisfyConstraints_samePart _ j)) ?_
  refine sameVMPA_trans (sameVMPA_of_samePart (satisfyConstraints_samePart _ j)) ?_
  exact handleCollisions_sameVMPA _ j

theorem stepN_sameVMPA (n : ℕ) :
    ∀ (s : ClothSystem) (j : ℕ),
      sameVMPA (s.particles.getD j defaultParticle)
        ((ClothSystem.stepN n s).particles.getD j defaultParticle) := by
  induction n with
  | zero => intro s j; exact sameVMPA_refl _
  | succ n ih =>
    intro s j
    exact sameVMPA_trans (substep_sameVMPA s j) (ih (s.substep) j)

theorem update_sameVMPA (dt : ℝ) (s : ClothSystem) (j : ℕ) :
    sameVMPA (s.particles.getD j defaultParticle)
      ((s.update dt).particles.getD j defaultParticle) := by
  unfold ClothSystem.update
  rw [updateVertexData_particles, updateWindVariation_particles, updateObjectMovement_particles]
  exact stepN_sameVMPA _ _ j

/-! Velocities of freshly built grids and of mutated states. -/

theorem gridParticles_velocity (W H : ℕ) (cw ch : ℝ) :
    ∀ p ∈ gridParticles W H cw ch, p.velocity = 0 := by
  intro p hp
  simp only [gridParticles, List.mem_flatMap, List.mem_map] at hp
  obtain ⟨y, _, x, _, hx⟩ := hp
  rw [← hx]
  rfl

theorem allVelZero_of_mem (l : List Particle) (h : ∀ p ∈ l, p.velocity = 0) (j : ℕ) :
    (l.getD j defaultParticle).velocity = 0 := by
  by_cases hj : j < l.length
  · exact h _ (getD_mem l j _ hj)
  · rw [List.getD_eq_default _ _ (le_of_not_lt hj)]
    rfl

theorem reset_allVelZero (s : ClothSystem) : allVelZero (ClothSystem.reset s) := by
  intro j
  exact allVelZero_of_mem _ (gridParticles_velocity _ _ _ _) j

/-- Setting a pinned flag on one slot preserves pointwise zero velocity. -/
theorem velZero_set_pinned (ps : List Particle) (i : ℕ)
    (h : ∀ j, (ps.getD j defaultParticle).velocity = 0) :
    ∀ j, (((ps.set i { ps.getD i defaultParticle with pinned := true }).getD j
      defaultParticle)).velocity = 0 := by
  intro j
  rw [getD_set]
  split_ifs with hc
  · rcases hc with ⟨hij, _⟩
    subst hij
    exact h _
  · exact h j

theorem pinTopRow_allVelZero (s : ClothSystem) (h : allVelZero s) :
    allVelZero (pinTopRow s) := by
  intro j
  show ((List.foldl
      (fun ps x => ps.set ((s.gridHeight - 1) * s.gridWidth + x)
        { ps.getD ((s.gridHeight - 1) * s.gridWidth + x) defaultParticle with pinned := true })
      s.particles (List.range s.gridWidth)).getD j defaultParticle).velocity = 0
  exact foldl_preserve
    (fun ps : List Particle => ∀ j, (ps.getD j defaultParticle).velocity = 0)
    _ (fun ps x hps => velZero_set_pinned ps _ hps)
    (List.range s.gridWidth) s.particles h j

theorem setMode_allVelZero (m : SimulationMode) (s : ClothSystem) :
    allVelZero (ClothSystem.setMode m s) := by
  cases m with
  | TEAR => exact pinTopRow_allVelZero _ (reset_allVelZero s)
  | COLLISION =>
    intro j
    exact velZero_set_pinned _ _ (velZero_set_pinned _ _ (reset_allVelZero s)) j
  | FLAG => exact pinTopRow_allVelZero _ (reset_allVelZero s)

theorem hmiStep_velZero (mousePos : Vec3) (st : List Particle × List Spring) (i : ℕ)
    (h : ∀ j, (st.1.getD j defaultParticle).velocity = 0) :
    ∀ j, (((hmiStep mousePos st i).1.getD j defaultParticle)).velocity = 0 := by
  intro j
  simp only [hmiStep]
  split_ifs with h1 h2
  · exact h j
  · rw [getD_set]
    split_ifs with hc
    · rcases hc with ⟨hij, _⟩
      subst hij
      exact h _
    · exact h j
  · exact h j

theorem handleMouseInteraction_allVelZero (mousePos : Vec3) (b : Bool) (s : ClothSystem)
    (h : allVelZero s) : allVelZero (s.handleMouseInteraction mousePos b) := by
  unfold ClothSystem.handleMouseInteraction
  split_ifs with hb
  · exact h
  · intro j
    have := foldl_preserve
      (fun st : List Particle × List Spring =>
        ∀ j, (st.1.getD j defaultParticle).velocity = 0)
      (hmiStep mousePos) (fun st i hst => hmiStep_velZero mousePos st i hst)
      (List.range s.particles.length) (s.particles, s.springs) h
    exact this j

/-! Claim C10. -/

/-- C10: particle velocity is zero at construction and is never written by
any operation: update, reset, setMode and handleMouseInteraction all leave
every slot's velocity at zero, and therefore the relative velocity used by
the wind force computation degenerates to the wind vector itself. -/
theorem C10_velocity_always_zero :
    (∀ (rng : ℕ → ℝ) (W H : ℕ) (w h : ℝ), allVelZero (ClothSystem.init rng W H w h)) ∧
    (∀ (s : ClothSystem) (dt : ℝ), allVelZero s → allVelZero (s.update dt)) ∧
    (∀ s : ClothSystem, allVelZero (ClothSystem.reset s)) ∧
    (∀ (m : SimulationMode) (s : ClothSystem), allVelZero (ClothSystem.setMode m s)) ∧
    (∀ (mousePos : Vec3) (b : Bool) (s : ClothSystem),
        allVelZero s → allVelZero (s.handleMouseInteraction mousePos b)) ∧
    (∀ (wd : Vec3) (ws : ℝ) (rng : ℕ → ℝ) (k : ℕ) (p : Particle),
        p.velocity = 0 → windRelativeVelocity wd ws rng k p = windVector wd ws rng k) := by
  refine ⟨?_, ?_, reset_allVelZero, setMode_allVelZero,
      handleMouseInteraction_allVelZero, ?_⟩
  · intro rng W H w h j
    exact allVelZero_of_mem _ (gridParticles_velocity _ _ _ _) j
  · intro s dt h j
    have hv := (update_sameVMPA dt s j).1
    rw [hv, h j]
  · intro wd ws rng k p hp
    unfold windRelativeVelocity
    rw [hp]
    ext <;> simp

/-- Witness for C10 at concrete inputs: a fresh 2-by-2 grid has zero
velocities, an update on the concrete torn state keeps them zero, and the
wind-relative velocity of a zero-velocity particle is the wind vector. -/
theorem C10_velocity_always_zero_witness :
    allVelZero (ClothSystem.init zeroStream 2 2 1 1) ∧
    allVelZero (ClothSystem.update (1 / 60) tornState) ∧
    windRelativeVelocity ⟨1, 0, 0⟩ 6 zeroStream 0 defaultParticle =
      windVector ⟨1, 0, 0⟩ 6 zeroStream 0 := by
  refine ⟨C10_velocity_always_zero.1 zeroStream 2 2 1 1,
    C10_velocity_always_zero.2.1 tornState (1 / 60) ?_,
    C10_velocity_always_zero.2.2.2.2.2 ⟨1, 0, 0⟩ 6 zeroStream 0 defaultParticle rfl⟩
  intro j
  match j with
  | 0 => rfl
  | 1 => rfl
  | n + 2 => rfl

/-! Per-stage identity lemmas for pinned particles. -/

theorem satisfyOne_pinned_id (tt : ℝ) (ps : List Particle) (sp : Spring) (j : ℕ)
    (hp : (ps.getD j defaultParticle).pinned = true) :
    (satisfyOne tt ps sp).2.getD j defaultParticle = ps.getD j defaultParticle := by
  simp only [satisfyOne]
  split_ifs with h1 h2 h3 h4 h5 h6 h7
  any_goals rfl
  · -- p2 pinned, p1 moved
    rw [getD_set]
    split_ifs with hc
    · exact absurd (by rw [hc.1]; exact hp) h6
    · rfl
  · -- p2 moved, p1 pinned
    rw [getD_set]
    split_ifs with hc
    · exact absurd (by rw [hc.1]; exact hp) h5
    · rfl
  · -- both moved
    rw [getD_set]
    split_ifs with hc
    · exact absurd (by rw [hc.1]; exact hp) h5
    · rw [getD_set]
      split_ifs with hc2
      · exact absurd (by rw [hc2.1]; exact hp) h7
      · rfl

theorem satisfyFold_pinned_id (tt : ℝ) :
    ∀ (sps : List Spring) (ps : List Particle) (j : ℕ),
      (ps.getD j defaultParticle).pinned = true →
      (satisfyFold tt sps ps).2.getD j defaultParticle = ps.getD j defaultParticle := by
  intro sps
  induction sps with
  | nil => intro ps j _; rfl
  | cons sp rest ih =>
    intro ps j hp
    have h1 := satisfyOne_pinned_id tt ps sp j hp
    have h2 := ih (satisfyOne tt ps sp).2 j (by rw [h1]; exact hp)
    calc (satisfyFold tt (sp :: rest) ps).2.getD j defaultParticle
        = (satisfyFold tt rest (satisfyOne tt ps sp).2).2.getD j defaultParticle := rfl
      _ = (satisfyOne tt ps sp).2.getD j defaultParticle := h2
      _ = ps.getD j defaultParticle := h1

theorem satisfyConstraints_pinned_id (s : ClothSystem) (j : ℕ)
    (hp : (s.particles.getD j defaultParticle).pinned = true) :
    (s.satisfyConstraints).particles.getD j defaultParticle =
      s.particles.getD j defaultParticle :=
  satisfyFold_pinned_id s.tearThreshold s.springs s.particles j hp

theorem applyForces_pinned_id (s : ClothSystem) (j : ℕ)
    (hp : (s.particles.getD j defaultParticle).pinned = true) :
    (s.applyForces).particles.getD j defaultParticle = s.particles.getD j defaultParticle :=
  applyForcesGo_pinned_id _ _ _ _ s.particles s.rngIdx j hp

theorem integrateVerlet_pinned_id (dt : ℝ) (s : ClothSystem) (j : ℕ)
    (hp : (s.particles.getD j defaultParticle).pinned = true) :
    (s.integrateVerlet dt).particles.getD j defaultParticle =
      s.particles.getD j defaultParticle := by
  rw [show (s.integrateVerlet dt).particles = s.particles.map (integrateParticle s.damping dt)
    from rfl, getD_map_self _ _ (integrateParticle_default s.damping dt)]
  exact integrateParticle_pinned_id s.damping dt _ hp

/-! Collision-stage identity for particles outside every sphere and above
the ground plane. -/

theorem sphereCollide_id_of_outside (p : Particle) (sph : CollisionSphere)
    (h : sph.radius ≤ Vec3.norm (p.position - sph.center)) :
    sphereCollide p sph = p := by
  simp only [sphereCollide]
  rw [if_neg (not_lt.mpr h)]

theorem foldl_sphereCollide_id (p : Particle) :
    ∀ sphs : List CollisionSphere,
      (∀ sph ∈ sphs, sph.radius ≤ Vec3.norm (p.position - sph.center)) →
      sphs.foldl sphereCollide p = p := by
  intro sphs
  induction sphs with
  | nil => intro _; rfl
  | cons sph rest ih =>
    intro h
    have h0 := sphereCollide_id_of_outside p sph (h sph (List.mem_cons_self _ _))
    calc List.foldl sphereCollide p (sph :: rest)
        = List.foldl sphereCollide (sphereCollide p sph) rest := rfl
      _ = List.foldl sphereCollide p rest := by rw [h0]
      _ = p := ih fun sph' hm => h sph' (List.mem_cons_of_mem _ hm)

theorem groundCollide_id_of_above (p : Particle) (h : -5 ≤ p.position.y) :
    groundCollide p = p := by
  simp only [groundCollide]
  rw [if_neg (not_lt.mpr h)]

theorem collideParticle_id (sphs : List CollisionSphere) (p : Particle)
    (hs : ∀ sph ∈ sphs, sph.radius ≤ Vec3.norm (p.position - sph.center))
    (hg : -5 ≤ p.position.y) : collideParticle sphs p = p := by
  simp only [collideParticle]
  split_ifs with h
  · rfl
  · rw [foldl_sphereCollide_id p sphs hs, groundCollide_id_of_above p hg]

theorem handleCollisions_id (s : ClothSystem) (j : ℕ)
    (hs : ∀ sph ∈ s.spheres, sph.radius ≤
        Vec3.norm ((s.particles.getD j defaultParticle).position - sph.center))
    (hg : -5 ≤ (s.particles.getD j defaultParticle).position.y) :
    (s.handleCollisions).particles.getD j defaultParticle =
      s.particles.getD j defaultParticle := by
  rw [show (s.handleCollisions).particles = s.particles.map (collideParticle s.spheres)
    from rfl, getD_map_self _ _ (collideParticle_default s.spheres)]
  exact collideParticle_id s.spheres _ hs hg

/-! The fixed physics step leaves qualifying pinned particles alone. -/

theorem substep_spheres (s : ClothSystem) : (s.substep).spheres = s.spheres := rfl

theorem stepN_spheres (n : ℕ) : ∀ s : ClothSystem, (ClothSystem.stepN n s).spheres = s.spheres := by
  induction n with
  | zero => intro s; rfl
  | succ n ih => intro s; rw [ClothSystem.stepN, ih, substep_spheres]

theorem substep_pinned_id (s : ClothSystem) (j : ℕ)
    (hp : (s.particles.getD j defaultParticle).pinned = true)
    (hs : ∀ sph ∈ s.spheres, sph.radius ≤
        Vec3.norm ((s.particles.getD j defaultParticle).position - sph.center))
    (hg : -5 ≤ (s.particles.getD j defaultParticle).position.y) :
    (s.substep).particles.getD j defaultParticle = s.particles.getD j defaultParticle := by
  have e1 := applyForces_pinned_id s j hp
  have e2 := integrateVerlet_pinned_id fixedTimeStep (s.applyForces) j (by rw [e1]; exact hp)
  set m2 := (s.applyForces).integrateVerlet fixedTimeStep with hm2
  have e12 : m2.particles.getD j defaultParticle = s.particles.getD j defaultParticle := by
    rw [e2, e1]
  have e3 := satisfyConstraints_pinned_id m2 j (by rw [e12]; exact hp)
  set m3 := m2.satisfyConstraints with hm3
  have e13 : m3.particles.getD j defaultParticle = s.particles.getD j defaultParticle := by
    rw [e3, e12]
  have e4 := satisfyConstraints_pinned_id m3 j (by rw [e13]; exact hp)
  set m4 := m3.satisfyConstraints with hm4
  have e14 : m4.particles.getD j defaultParticle = s.particles.getD j defaultParticle := by
    rw [e4, e13]
  have e5 := satisfyConstraints_pinned_id m4 j (by rw [e14]; exact hp)
  set m5 := m4.satisfyConstraints with hm5
  have e15 : m5.particles.getD j defaultParticle = s.particles.getD j defaultParticle := by
    rw [e5, e14]
  have hm5s : m5.spheres = s.spheres := rfl
  have e6 := handleCollisions_id m5 j (by rw [e15, hm5s]; exact hs) (by rw [e15]; exact hg)
  show (m5.handleCollisions).particles.getD j defaultParticle = _
  rw [e6, e15]

theorem stepN_pinned_id (n : ℕ) :
    ∀ (s : ClothSystem) (j : ℕ),
      (s.particles.getD j defaultParticle).pinned = true →
      (∀ sph ∈ s.spheres, sph.radius ≤
          Vec3.norm ((s.particles.getD j defaultParticle).position - sph.center)) →
      -5 ≤ (s.particles.getD j defaultParticle).position.y →
      (ClothSystem.stepN n s).particles.getD j defaultParticle =
        s.particles.getD j defaultParticle := by
  induction n with
  | zero => intro s j _ _ _; rfl
  | succ n ih =>
    intro s j hp hs hg
    have e := substep_pinned_id s j hp hs hg
    have hsp := substep_spheres s
    have := ih (s.substep) j (by rw [e]; exact hp) (by rw [e, hsp]; exact hs) (by rw [e]; exact hg)
    rw [ClothSystem.stepN, this, e]

/-- A single update leaves a qualifying pinned particle in place. -/
theorem update_pinned_id (dt : ℝ) (s : ClothSystem) (j : ℕ)
    (hp : (s.particles.getD j defaultParticle).pinned = true)
    (hs : ∀ sph ∈ s.spheres, sph.radius ≤
        Vec3.norm ((s.particles.getD j defaultParticle).position - sph.center))
    (hg : -5 ≤ (s.particles.getD j defaultParticle).position.y) :
    (s.update dt).particles.getD j defaultParticle = s.particles.getD j defaultParticle := by
  unfold ClothSystem.update
  rw [updateVertexData_particles, updateWindVariation_particles, updateObjectMovement_particles]
  exact stepN_pinned_id _ _ j hp hs hg

theorem updateObjectMovement_id_of_no_spheres (dt : ℝ) (s : ClothSystem)
    (h : s.spheres = []) : s.updateObjectMovement dt = s := by
  unfold ClothSystem.updateObjectMovement
  rw [h]

theorem update_spheres_of_empty (dt : ℝ) (s : ClothSystem) (h : s.spheres = []) :
    (s.update dt).spheres = [] := by
  unfold ClothSystem.update
  rw [updateVertexData_spheres, updateWindVariation_spheres,
    updateObjectMovement_id_of_no_spheres _ _ (by rw [stepN_spheres]; exact h),
    stepN_spheres]
  exact h

/-! Claim C1 (corrected). -/

/-- C1 counterexample: the collision stage does not exempt pinned particles,
so update moves a pinned particle that violates the ground plane: in the
concrete state below, the single particle is pinned yet one update call
changes its position (the ground clamp raises it to y = -5). -/
theorem C1_pinned_moved_by_collision_stage :
    (pinnedBelowGroundState.particles.getD 0 defaultParticle).pinned = true ∧
    ((ClothSystem.update (1 / 60) pinnedBelowGroundState).particles.getD 0
        defaultParticle).position ≠
      (pinnedBelowGroundState.particles.getD 0 defaultParticle).position := by
  refine ⟨rfl, ?_⟩
  have hn : Nat.floor ((pinnedBelowGroundState.elapsedTime + 1 / 60) / fixedTimeStep) = 1 := by
    show Nat.floor (((0 : ℝ) + 1 / 60) / (1 / 60)) = 1
    norm_num
  unfold ClothSystem.update
  rw [updateVertexData_particles, updateWindVariation_particles,
    updateObjectMovement_particles, hn]
  show ((ClothSystem.stepN 1 _).particles.getD 0 defaultParticle).position ≠ _
  rw [ClothSystem.stepN, ClothSystem.stepN]
  have hpre : ((({ pinnedBelowGroundState with
      elapsedTime := pinnedBelowGroundState.elapsedTime + 1 / 60 -
        (1 : ℕ) * fixedTimeStep } : ClothSystem).applyForces.integrateVerlet
        fixedTimeStep).satisfyConstraints.satisfyConstraints.satisfyConstraints).particles =
      [pinnedParticle] := rfl
  show ((ClothSystem.handleCollisions _).particles.getD 0 defaultParticle).position ≠ _
  rw [show ∀ t : ClothSystem, (ClothSystem.handleCollisions t).particles =
    t.particles.map (collideParticle t.spheres) from fun _ => rfl]
  rw [hpre]
  show (collideParticle [] pinnedParticle).position ≠ pinnedParticle.position
  rw [show collideParticle [] pinnedParticle = groundCollide pinnedParticle from rfl]
  simp only [groundCollide]
  rw [if_pos (by norm_num [pinnedParticle] : pinnedParticle.position.y < -5)]
  simp [pinnedParticle]

/-- C1 (amended): pinned particles are untouched by the force, integration
and constraint stages; a pinned particle keeps exactly its position across an
update call provided it is not strictly inside any collision sphere and is
not below the ground plane (the collision stage does not exempt pinned
particles); consequently, with no collision spheres present, a pinned
particle on or above the ground plane keeps its position across any sequence
of update calls. -/
theorem C1_pinned_invariant_amended :
    (∀ (dt : ℝ) (s : ClothSystem) (j : ℕ),
      (s.particles.getD j defaultParticle).pinned = true →
      (∀ sph ∈ s.spheres, sph.radius ≤
          Vec3.norm ((s.particles.getD j defaultParticle).position - sph.center)) →
      -5 ≤ (s.particles.getD j defaultParticle).position.y →
      (s.update dt).particles.getD j defaultParticle = s.particles.getD j defaultParticle) ∧
    (∀ (dts : List ℝ) (s : ClothSystem) (j : ℕ),
      s.spheres = [] →
      (s.particles.getD j defaultParticle).pinned = true →
      -5 ≤ (s.particles.getD j defaultParticle).position.y →
      ((dts.foldl (fun st dt => ClothSystem.update dt st) s).particles.getD j
        defaultParticle) = s.particles.getD j defaultParticle) := by
  constructor
  · exact update_pinned_id
  · intro dts
    induction dts with
    | nil => intro s j _ _ _; rfl
    | cons dt rest ih =>
      intro s j hemp hp hg
      have e := update_pinned_id dt s j hp (by rw [hemp]; intro sph hm; cases hm) hg
      have := ih (s.update dt) j (update_spheres_of_empty dt s hemp)
        (by rw [e]; exact hp) (by rw [e]; exact hg)
      calc ((dt :: rest).foldl (fun st dt => ClothSystem.update dt st) s).particles.getD j
            defaultParticle
          = (rest.foldl (fun st dt => ClothSystem.update dt st) (s.update dt)).particles.getD j
            defaultParticle := rfl
        _ = (s.update dt).particles.getD j defaultParticle := this
        _ = s.particles.getD j defaultParticle := e

/-- Witness for the amended C1: a pinned particle at the origin, with one
distant sphere, survives one update in place; with no spheres it survives a
two-call update sequence in place. -/
theorem C1_pinned_invariant_amended_witness :
    ((pinnedSphereState.particles.getD 0 defaultParticle).pinned = true ∧
      (ClothSystem.update (1 / 60) pinnedSphereState).particles.getD 0 defaultParticle =
        pinnedSphereState.particles.getD 0 defaultParticle) ∧
    ((pinnedSafeState.particles.getD 0 defaultParticle).pinned = true ∧
      (([(1 / 60 : ℝ), 1 / 30].foldl (fun st dt => ClothSystem.update dt st)
        pinnedSafeState).particles.getD 0 defaultParticle) =
        pinnedSafeState.particles.getD 0 defaultParticle) := by
  constructor
  · refine ⟨rfl, C1_pinned_invariant_amended.1 (1 / 60) pinnedSphereState 0 rfl ?_ ?_⟩
    · intro sph hm
      have hm' : sph = ({ center := ⟨0, 0, 3⟩, radius := 1 } : CollisionSphere) := by
        simpa [pinnedSphereState] using hm
      subst hm'
      show (1 : ℝ) ≤ Vec3.norm ((⟨0, 0, 0⟩ : Vec3) - ⟨0, 0, 3⟩)
      rw [Vec3.norm_eq_of_sq _ 3 (by norm_num) (by simp [Vec3.dot]; norm_num)]
      norm_num
    · show (-5 : ℝ) ≤ 0
      norm_num
  · refine ⟨rfl, C1_pinned_invariant_amended.2 [(1 / 60 : ℝ), 1 / 30] pinnedSafeState 0 rfl rfl ?_⟩
    show (-5 : ℝ) ≤ 0
    norm_num

/-! Geometry of the sphere collision response. -/

/-- After the per-sphere response, the particle sits on or outside that
sphere: the penetrating case projects it exactly onto the surface. -/
theorem sphereCollide_on_surface (p : Particle) (sph : CollisionSphere) :
    sph.radius ≤ Vec3.norm ((sphereCollide p sph).position - sph.center) := by
  simp only [sphereCollide]
  split_ifs with h1 h2
  · -- penetrating, generic normal diff / distance
    have hd : Vec3.norm (p.position - sph.center) ≠ 0 := by
      intro h0
      rw [h0] at h2
      norm_num at h2
    have hdp : 0 < Vec3.norm (p.position - sph.center) :=
      lt_of_le_of_ne (Vec3.norm_nonneg _) (Ne.symm hd)
    have hr : 0 ≤ sph.radius := le_trans (Vec3.norm_nonneg _) (le_of_lt h1)
    have hsub : (sph.center + sph.radius •
        ((1 / Vec3.norm (p.position - sph.center)) • (p.position - sph.center))) - sph.center =
        sph.radius • ((1 / Vec3.norm (p.position - sph.center)) • (p.position - sph.center)) := by
      ext <;> simp <;> ring
    rw [hsub, Vec3.norm_smul, Vec3.norm_smul, abs_of_nonneg hr,
      abs_of_nonneg (by positivity : (0 : ℝ) ≤ 1 / Vec3.norm (p.position - sph.center)),
      one_div, inv_mul_cancel₀ hd, mul_one]
  · -- penetrating, fallback normal (0, 1, 0)
    have hr : 0 ≤ sph.radius := le_trans (Vec3.norm_nonneg _) (le_of_lt h1)
    have hsub : (sph.center + sph.radius • (⟨0, 1, 0⟩ : Vec3)) - sph.center =
        sph.radius • (⟨0, 1, 0⟩ : Vec3) := by
      ext <;> simp
    rw [hsub, Vec3.norm_smul, abs_of_nonneg hr,
      Vec3.norm_eq_of_sq _ 1 (by norm_num) (by simp [Vec3.dot]), mul_one]
  · exact not_lt.mp h1

/-- Folding the sphere list leaves the particle on or outside the LAST
sphere (later corrections are never undone by anything after them). -/
theorem foldl_sphereCollide_last (p : Particle) :
    ∀ (sphs : List CollisionSphere) (h : sphs ≠ []),
      (sphs.getLast h).radius ≤
        Vec3.norm ((sphs.foldl sphereCollide p).position - (sphs.getLast h).center) := by
  intro sphs
  induction sphs generalizing p with
  | nil => intro h; exact absurd rfl h
  | cons a rest ih =>
    intro h
    cases rest with
    | nil => exact sphereCollide_on_surface p a
    | cons b t =>
      have hne : (b :: t) ≠ [] := List.cons_ne_nil _ _
      rw [List.getLast_cons hne]
      exact ih (sphereCollide p a) hne

theorem groundCollide_cases (p : Particle) :
    groundCollide p = p ∨ (groundCollide p).position.y = -5 := by
  simp only [groundCollide]
  split_ifs with h
  · right; rfl
  · left; rfl

/-- After the full per-particle collision body, an active particle is on or
outside the last sphere unless the ground clamp moved it to y = -5. -/
theorem collideParticle_last (sphs : List CollisionSphere) (p : Particle)
    (ha : p.active = true) (hne : sphs ≠ []) :
    (sphs.getLast hne).radius ≤
      Vec3.norm ((collideParticle sphs p).position - (sphs.getLast hne).center) ∨
    (collideParticle sphs p).position.y = -5 := by
  simp only [collideParticle]
  rw [if_neg (by rw [ha]; exact fun h => by cases h)]
  rcases groundCollide_cases (sphs.foldl sphereCollide p) with h | h
  · rw [h]
    exact Or.inl (foldl_sphereCollide_last p sphs hne)
  · exact Or.inr h

/-! Claim C2 (corrected). -/

/-- C2 counterexample: update itself does not preserve sphere containment,
because updateObjectMovement moves the first sphere AFTER the collision pass:
in the concrete state below the particle starts exactly on the sphere surface
(not inside), yet after one update call it lies strictly inside the sphere by
more than 1 unit of depth. -/
theorem C2_containment_broken_by_obstacle_motion :
    (¬ Vec3.norm ((sphereFrontState.particles.getD 0 defaultParticle).position -
        (sphereFrontState.spheres.getD 0 defaultSphere).center) <
        (sphereFrontState.spheres.getD 0 defaultSphere).radius) ∧
    ((ClothSystem.update (1 / 120) sphereFrontState).particles.getD 0
        defaultParticle).active = true ∧
    Vec3.norm (((ClothSystem.update (1 / 120) sphereFrontState).particles.getD 0
        defaultParticle).position -
        ((ClothSystem.update (1 / 120) sphereFrontState).spheres.getD 0
          defaultSphere).center) <
      ((ClothSystem.update (1 / 120) sphereFrontState).spheres.getD 0
        defaultSphere).radius - 1 := by
  have hstart : ¬ Vec3.norm ((sphereFrontState.particles.getD 0 defaultParticle).position -
      (sphereFrontState.spheres.getD 0 defaultSphere).center) <
      (sphereFrontState.spheres.getD 0 defaultSphere).radius := by
    show ¬ Vec3.norm ((⟨0, 0, -5⟩ : Vec3) - ⟨0, 0, 0⟩) < 5
    rw [Vec3.norm_eq_of_sq _ 5 (by norm_num) (by simp [Vec3.dot]; norm_num)]
    norm_num
  have hn : Nat.floor ((sphereFrontState.elapsedTime + 1 / 120) / fixedTimeStep) = 0 := by
    show Nat.floor (((0 : ℝ) + 1 / 120) / (1 / 60)) = 0
    norm_num
  have hparts : (ClothSystem.update (1 / 120) sphereFrontState).particles =
      sphereFrontState.particles := by
    unfold ClothSystem.update
    rw [updateVertexData_particles, updateWindVariation_particles,
      updateObjectMovement_particles, hn]
    rfl
  have hsph : (ClothSystem.update (1 / 120) sphereFrontState).spheres =
      [{ center := ⟨0, 0, -(601 / 150)⟩, radius := 5 }] := by
    unfold ClothSystem.update
    rw [updateVertexData_spheres, updateWindVariation_spheres, hn]
    show (ClothSystem.updateObjectMovement (1 / 120)
      { sphereFrontState with elapsedTime := sphereFrontState.elapsedTime + 1 / 120 -
          (0 : ℕ) * fixedTimeStep }).spheres = _
    simp only [ClothSystem.updateObjectMovement, sphereFrontState, objectMoveSpeed,
      objectMoveRange]
    norm_num
  refine ⟨hstart, ?_, ?_⟩
  · rw [hparts]
    rfl
  · rw [hparts, hsph]
    show Vec3.norm ((⟨0, 0, -5⟩ : Vec3) - ⟨0, 0, -(601 / 150)⟩) < 5 - 1
    rw [Vec3.norm_eq_of_sq _ (149 / 150) (by norm_num) (by simp [Vec3.dot]; norm_num)]
    norm_num

/-- C2 (amended): the containment guarantee holds at the end of the collision
stage of each fixed physics step, relative to the LAST sphere in the list
(sequential resolution does not protect earlier spheres), and only if the
subsequent ground-plane clamp did not move the particle (in which case its y
coordinate is exactly -5); after update returns, sphere 0 has additionally
been moved by the per-frame obstacle animation, so no post-update containment
holds. -/
theorem C2_containment_amended (s : ClothSystem) (j : ℕ)
    (ha : (s.particles.getD j defaultParticle).active = true)
    (hne : s.spheres ≠ []) :
    (s.spheres.getLast hne).radius ≤
      Vec3.norm (((s.substep).particles.getD j defaultParticle).position -
        (s.spheres.getLast hne).center) ∨
    ((s.substep).particles.getD j defaultParticle).position.y = -5 := by
  unfold ClothSystem.substep
  set m5 := (((s.applyForces.integrateVerlet
    fixedTimeStep).satisfyConstraints).satisfyConstraints).satisfyConstraints with hm5
  have hact : (m5.particles.getD j defaultParticle).active =
      (s.particles.getD j defaultParticle).active := by
    have t1 := applyForces_sameVMPA s j
    have t2 := integrateVerlet_sameVMPA fixedTimeStep (s.applyForces) j
    have t3 := satisfyConstraints_samePart (s.applyForces.integrateVerlet fixedTimeStep) j
    have t4 := satisfyConstraints_samePart
      ((s.applyForces.integrateVerlet fixedTimeStep).satisfyConstraints) j
    have t5 := satisfyConstraints_samePart
      (((s.applyForces.integrateVerlet fixedTimeStep).satisfyConstraints).satisfyConstraints) j
    exact (sameVMPA_trans (sameVMPA_trans (sameVMPA_trans (sameVMPA_trans t1 t2)
      (sameVMPA_of_samePart t3)) (sameVMPA_of_samePart t4)) (sameVMPA_of_samePart t5)).2.2.2
  have hsph5 : m5.spheres = s.spheres := rfl
  rw [show (m5.handleCollisions).particles = m5.particles.map (collideParticle m5.spheres)
    from rfl, getD_map_self _ _ (collideParticle_default m5.spheres)]
  have := collideParticle_last s.spheres (m5.particles.getD j defaultParticle)
    (by rw [hact]; exact ha) hne
  exact this

/-- Witness for the amended C2 at the concrete sphere state: its particle is
active, and after one fixed step it is on/outside the (single, hence last)
sphere or ground-clamped. -/
theorem C2_containment_amended_witness :
    ((sphereFrontState.particles.getD 0 defaultParticle).active = true ∧
      sphereFrontState.spheres ≠ []) ∧
    ((sphereFrontState.spheres.getLast (List.cons_ne_nil _ _)).radius ≤
      Vec3.norm (((sphereFrontState.substep).particles.getD 0 defaultParticle).position -
        (sphereFrontState.spheres.getLast (List.cons_ne_nil _ _)).center) ∨
    ((sphereFrontState.substep).particles.getD 0 defaultParticle).position.y = -5) := by
  exact ⟨⟨rfl, List.cons_ne_nil _ _⟩,
    C2_containment_amended sphereFrontState 0 rfl (List.cons_ne_nil _ _)⟩

/-! Counting helpers over List.range. -/

theorem sum_map_const (n c : ℕ) : ((List.range n).map (fun _ => c)).sum = n * c := by
  rw [List.map_const', List.sum_replicate, List.length_range, smul_eq_mul]

theorem count_threshold (m : ℕ) : ∀ W : ℕ,
    ((List.range W).map (fun x => if x < m then (1 : ℕ) else 0)).sum = min m W := by
  intro W
  induction W with
  | zero => simp
  | succ W ih =>
    rw [List.range_succ, List.map_append, List.sum_append]
    simp only [List.map_cons, List.map_nil, List.sum_cons, List.sum_nil, ih]
    split_ifs with h <;> omega

theorem count_add_lt (k W : ℕ) :
    ((List.range W).map (fun x => if x + k < W then (1 : ℕ) else 0)).sum = W - k := by
  have h : (fun x => if x + k < W then (1 : ℕ) else 0) =
      (fun x => if x < W - k then (1 : ℕ) else 0) := by
    funext x
    exact if_congr (by omega) rfl rfl
  rw [h, count_threshold]
  omega

theorem count_pos_sum : ∀ W : ℕ,
    ((List.range W).map (fun x => if 0 < x then (1 : ℕ) else 0)).sum = W - 1 := by
  intro W
  induction W with
  | zero => simp
  | succ W ih =>
    rw [List.range_succ, List.map_append, List.sum_append]
    simp only [List.map_cons, List.map_nil, List.sum_cons, List.sum_nil, ih]
    split_ifs with h <;> omega

/-! Shape of the spring family created at one grid cell. -/

theorem springsAt_length (W H : ℕ) (ps : List Particle) (x y : ℕ) :
    (springsAt W H ps x y).length =
      (if x + 1 < W then 1 else 0) + (if y + 1 < H then 1 else 0) +
      (if x + 1 < W ∧ y + 1 < H then 1 else 0) + (if 0 < x ∧ y + 1 < H then 1 else 0) +
      (if x + 2 < W then 1 else 0) + (if y + 2 < H then 1 else 0) := by
  simp only [springsAt, List.length_append, apply_ite List.length, List.length_singleton,
    List.length_nil]

theorem springsAt_countP_structural (W H : ℕ) (ps : List Particle) (x y : ℕ) :
    (springsAt W H ps x y).countP isStructural =
      (if x + 1 < W then 1 else 0) + (if y + 1 < H then 1 else 0) := by
  simp only [springsAt, List.countP_append, apply_ite (List.countP isStructural),
    List.countP_singleton, List.countP_nil]
  simp [isStructural]

theorem springsAt_countP_shear (W H : ℕ) (ps : List Particle) (x y : ℕ) :
    (springsAt W H ps x y).countP isShear =
      (if x + 1 < W ∧ y + 1 < H then 1 else 0) + (if 0 < x ∧ y + 1 < H then 1 else 0) := by
  simp only [springsAt, List.countP_append, apply_ite (List.countP isShear),
    List.countP_singleton, List.countP_nil]
  simp [isShear]

theorem springsAt_countP_bend (W H : ℕ) (ps : List Particle) (x y : ℕ) :
    (springsAt W H ps x y).countP isBend =
      (if x + 2 < W then 1 else 0) + (if y + 2 < H then 1 else 0) := by
  simp only [springsAt, List.countP_append, apply_ite (List.countP isBend),
    List.countP_singleton, List.countP_nil]
  simp [isBend]

theorem length_eq_three_counts (l : List Spring) :
    l.length = l.countP isStructural + l.countP isShear + l.countP isBend := by
  induction l with
  | nil => rfl
  | cons sp rest ih =>
    simp only [List.length_cons, List.countP_cons, ih]
    cases htype : sp.type <;> simp [isStructural, isShear, isBend, htype] <;> omega

/-! Closed-form counts for the whole grid. -/

theorem gridParticles_length (W H : ℕ) (cw ch : ℝ) :
    (gridParticles W H cw ch).length = W * H := by
  simp only [gridParticles, List.length_flatMap, Function.comp_def, List.length_map,
    List.length_range]
  rw [sum_map_const, Nat.mul_comm]

theorem gridSprings_countP_structural (W H : ℕ) (ps : List Particle) :
    (gridSprings W H ps).countP isStructural = H * (W - 1) + W * (H - 1) := by
  simp only [gridSprings, List.countP_flatMap, Function.comp_def, springsAt_countP_structural,
    List.sum_map_add, count_add_lt, sum_map_const]
  have h2 : ((List.range H).map (fun y => W * if y + 1 < H then 1 else 0)).sum = W * (H - 1) := by
    rw [List.sum_map_mul_left, count_add_lt]
  rw [h2]

theorem gridSprings_countP_shear (W H : ℕ) (ps : List Particle) :
    (gridSprings W H ps).countP isShear = 2 * (W - 1) * (H - 1) := by
  simp only [gridSprings, List.countP_flatMap, Function.comp_def, springsAt_countP_shear]
  have hrow : ∀ y, ((List.range W).map (fun x =>
      (if x + 1 < W ∧ y + 1 < H then 1 else 0) +
      (if 0 < x ∧ y + 1 < H then 1 else 0))).sum =
      if y + 1 < H then (W - 1) + (W - 1) else 0 := by
    intro y
    by_cases hy : y + 1 < H
    · rw [if_pos hy]
      simp only [hy, and_true]
      rw [List.sum_map_add, count_add_lt, count_pos_sum]
    · simp [hy]
  simp only [hrow]
  have h : ((List.range H).map (fun y => if y + 1 < H then (W - 1) + (W - 1) else 0)).sum =
      ((W - 1) + (W - 1)) * (H - 1) := by
    have hc : (fun y => if y + 1 < H then (W - 1) + (W - 1) else 0) =
        (fun y => ((W - 1) + (W - 1)) * if y + 1 < H then 1 else 0) := by
      funext y
      split_ifs <;> ring
    rw [hc, List.sum_map_mul_left, count_add_lt]
  rw [h]
  ring

theorem gridSprings_countP_bend (W H : ℕ) (ps : List Particle) :
    (gridSprings W H ps).countP isBend = H * (W - 2) + W * (H - 2) := by
  simp only [gridSprings, List.countP_flatMap, Function.comp_def, springsAt_countP_bend,
    List.sum_map_add, count_add_lt, sum_map_const]
  have h2 : ((List.range H).map (fun y => W * if y + 2 < H then 1 else 0)).sum = W * (H - 2) := by
    rw [List.sum_map_mul_left, count_add_lt]
  rw [h2]

theorem gridSprings_length (W H : ℕ) (ps : List Particle) :
    (gridSprings W H ps).length =
      (H * (W - 1) + W * (H - 1)) + 2 * (W - 1) * (H - 1) +
      (H * (W - 2) + W * (H - 2)) := by
  rw [length_eq_three_counts, gridSprings_countP_structural, gridSprings_countP_shear,
    gridSprings_countP_bend]

/-! Claim C5. -/

/-- C5: a W-by-H grid construction produces exactly W*H particles, and the
spring container holds exactly H*(W-1) + W*(H-1) structural springs,
2*(W-1)*(H-1) shear springs, and H*(W-2) + W*(H-2) bend springs (natural
subtraction realizing max(.-k, 0)), the spring count being their sum. -/
theorem C5_grid_counts (rng : ℕ → ℝ) (W H : ℕ) (w h : ℝ) (hW : 2 ≤ W) (hH : 2 ≤ H) :
    (ClothSystem.init rng W H w h).particles.length = W * H ∧
    (ClothSystem.init rng W H w h).springs.countP isStructural =
      H * (W - 1) + W * (H - 1) ∧
    (ClothSystem.init rng W H w h).springs.countP isShear = 2 * (W - 1) * (H - 1) ∧
    (ClothSystem.init rng W H w h).springs.countP isBend = H * (W - 2) + W * (H - 2) ∧
    (ClothSystem.init rng W H w h).springs.length =
      (H * (W - 1) + W * (H - 1)) + 2 * (W - 1) * (H - 1) +
      (H * (W - 2) + W * (H - 2)) := by
  exact ⟨gridParticles_length W H w h, gridSprings_countP_structural W H _,
    gridSprings_countP_shear W H _, gridSprings_countP_bend W H _, gridSprings_length W H _⟩

/-- Witness for C5 on the concrete 3-by-4 grid: 3*4 = 12 particles, 4*2+3*3 =
17 structural, 2*2*3 = 12 shear, 4*1+3*2 = 10 bend springs, 39 in total. -/
theorem C5_grid_counts_witness :
    ((2 ≤ 3 ∧ 2 ≤ 4) ∧ (ClothSystem.init zeroStream 3 4 1 1).particles.length = 12) ∧
    (ClothSystem.init zeroStream 3 4 1 1).springs.countP isStructural = 17 ∧
    (ClothSystem.init zeroStream 3 4 1 1).springs.countP isShear = 12 ∧
    (ClothSystem.init zeroStream 3 4 1 1).springs.countP isBend = 10 ∧
    (ClothSystem.init zeroStream 3 4 1 1).springs.length = 39 := by
  obtain ⟨h1, h2, h3, h4, h5⟩ :=
    C5_grid_counts zeroStream 3 4 1 1 (by decide) (by decide)
  exact ⟨⟨⟨by decide, by decide⟩, h1⟩, h2, h3, h4, h5⟩

/-! Claim C6. -/

theorem springsAt_restLength (W H : ℕ) (ps : List Particle) (x y : ℕ) :
    ∀ sp ∈ springsAt W H ps x y,
      sp.restLength = Vec3.norm ((ps.getD sp.particle2 defaultParticle).position -
        (ps.getD sp.particle1 defaultParticle).position) := by
  intro sp hsp
  simp only [springsAt, List.mem_append, mem_ite_singleton] at hsp
  rcases hsp with ((((h | h) | h) | h) | h) | h <;> rw [h.2]

theorem gridSprings_restLength (W H : ℕ) (ps : List Particle) :
    ∀ sp ∈ gridSprings W H ps,
      sp.restLength = Vec3.norm ((ps.getD sp.particle2 defaultParticle).position -
        (ps.getD sp.particle1 defaultParticle).position) := by
  intro sp hsp
  simp only [gridSprings, List.mem_flatMap] at hsp
  obtain ⟨y, _, x, _, hx⟩ := hsp
  exact springsAt_restLength W H ps x y sp hx

theorem createClothGrid_restLength (s : ClothSystem) (k : ℕ)
    (hk : k < (s.createClothGrid).springs.length) :
    ((s.createClothGrid).springs.getD k defaultSpring).restLength =
      Vec3.norm (((s.createClothGrid).particles.getD
          ((s.createClothGrid).springs.getD k defaultSpring).particle2
          defaultParticle).position -
        ((s.createClothGrid).particles.getD
          ((s.createClothGrid).springs.getD k defaultSpring).particle1
          defaultParticle).position) :=
  gridSprings_restLength s.gridWidth s.gridHeight
    (gridParticles s.gridWidth s.gridHeight s.clothWidth s.clothHeight) _
    (getD_mem _ k _ hk)

/-- C6: immediately after construction or reset, every spring's rest length
equals the Euclidean distance between the current (initial) positions of its
two endpoint particles, so the flat initial configuration is stress-free. -/
theorem C6_rest_lengths_stress_free :
    (∀ (rng : ℕ → ℝ) (W H : ℕ) (w h : ℝ) (k : ℕ),
      k < (ClothSystem.init rng W H w h).springs.length →
      ((ClothSystem.init rng W H w h).springs.getD k defaultSpring).restLength =
        Vec3.norm (((ClothSystem.init rng W H w h).particles.getD
            ((ClothSystem.init rng W H w h).springs.getD k defaultSpring).particle2
            defaultParticle).position -
          ((ClothSystem.init rng W H w h).particles.getD
            ((ClothSystem.init rng W H w h).springs.getD k defaultSpring).particle1
            defaultParticle).position)) ∧
    (∀ (s : ClothSystem) (k : ℕ),
      k < (ClothSystem.reset s).springs.length →
      ((ClothSystem.reset s).springs.getD k defaultSpring).restLength =
        Vec3.norm (((ClothSystem.reset s).particles.getD
            ((ClothSystem.reset s).springs.getD k defaultSpring).particle2
            defaultParticle).position -
          ((ClothSystem.reset s).particles.getD
            ((ClothSystem.reset s).springs.getD k defaultSpring).particle1
            defaultParticle).position)) := by
  constructor
  · intro rng W H w h k hk
    exact createClothGrid_restLength _ k hk
  · intro s k hk
    exact createClothGrid_restLength s k hk

/-- Witness for C6: the first spring of a fresh 2-by-2 grid has rest length
equal to the distance between its endpoints' positions. -/
theorem C6_rest_lengths_stress_free_witness :
    0 < (ClothSystem.init zeroStream 2 2 1 1).springs.length ∧
    ((ClothSystem.init zeroStream 2 2 1 1).springs.getD 0 defaultSpring).restLength =
      Vec3.norm (((ClothSystem.init zeroStream 2 2 1 1).particles.getD
          ((ClothSystem.init zeroStream 2 2 1 1).springs.getD 0 defaultSpring).particle2
          defaultParticle).position -
        ((ClothSystem.init zeroStream 2 2 1 1).particles.getD
          ((ClothSystem.init zeroStream 2 2 1 1).springs.getD 0 defaultSpring).particle1
          defaultParticle).position) :=
  ⟨by decide, C6_rest_lengths_stress_free.1 zeroStream 2 2 1 1 0 (by decide)⟩

/-! Claim C9. -/

theorem gridParticles_active (W H : ℕ) (cw ch : ℝ) :
    ∀ p ∈ gridParticles W H cw ch, p.active = true := by
  intro p hp
  simp only [gridParticles, List.mem_flatMap, List.mem_map] at hp
  obtain ⟨y, _, x, _, hx⟩ := hp
  rw [← hx]
  rfl

/-- C9: reset is idempotent: resetting twice yields a state propositionally
identical to resetting once, and the rebuilt containers carry no residual
inactive particles or springs. -/
theorem C9_reset_idempotent (s : ClothSystem) :
    ClothSystem.reset (ClothSystem.reset s) = ClothSystem.reset s ∧
    (∀ p ∈ (ClothSystem.reset s).particles, p.active = true) ∧
    (∀ sp ∈ (ClothSystem.reset s).springs, sp.active = true) :=
  ⟨rfl, gridParticles_active s.gridWidth s.gridHeight s.clothWidth s.clothHeight,
    gridSprings_active s.gridWidth s.gridHeight _⟩

/-- Witness for C9 at the concrete torn state (which carries residual
inactive entries before the reset). -/
theorem C9_reset_idempotent_witness :
    ClothSystem.reset (ClothSystem.reset tornState) = ClothSystem.reset tornState ∧
    ((ClothSystem.reset tornState).particles.getD 0 defaultParticle).active = true ∧
    ((ClothSystem.reset tornState).springs.getD 0 defaultSpring).active = true := by
  obtain ⟨h1, h2, h3⟩ := C9_reset_idempotent tornState
  exact ⟨h1, h2 _ (getD_mem _ 0 _ (by decide)), h3 _ (getD_mem _ 0 _ (by decide))⟩

/-! The tear loop of handleMouseInteraction: characterization. -/

theorem hmiTriggers_lt (mousePos : Vec3) (ps : List Particle) (i : ℕ)
    (h : hmiTriggers mousePos ps i) : i < ps.length := by
  by_contra hc
  have hd := List.getD_eq_default ps defaultParticle (le_of_not_lt hc)
  rw [hmiTriggers, hd] at h
  exact absurd h.1 (by decide)

theorem deactivateSpring_default : deactivateSpring defaultSpring = defaultSpring := rfl

theorem deactivateSpring_idem (sp : Spring) :
    deactivateSpring (deactivateSpring sp) = deactivateSpring sp := rfl

/-- The spring-deactivation map of one tear-loop iteration fixes the default
spring. -/
theorem hmiSpringMap_default (k : ℕ) :
    (if defaultSpring.particle1 = k ∨ defaultSpring.particle2 = k
      then deactivateSpring defaultSpring else defaultSpring) = defaultSpring := by
  split_ifs <;> rfl

/-- Full characterization of the first k iterations of the tear loop. -/
theorem hmiFold_characterize (mousePos : Vec3) (ps0 : List Particle) (sps0 : List Spring) :
    ∀ k : ℕ,
      ((List.range k).foldl (hmiStep mousePos) (ps0, sps0)).1.length = ps0.length ∧
      (∀ i, i < k → hmiTriggers mousePos ps0 i →
        ((List.range k).foldl (hmiStep mousePos) (ps0, sps0)).1.getD i defaultParticle =
          deactivateParticle (ps0.getD i defaultParticle)) ∧
      (∀ i, ¬(i < k ∧ hmiTriggers mousePos ps0 i) →
        ((List.range k).foldl (hmiStep mousePos) (ps0, sps0)).1.getD i defaultParticle =
          ps0.getD i defaultParticle) ∧
      (∀ j, touchedBelow mousePos ps0 sps0 k j →
        ((List.range k).foldl (hmiStep mousePos) (ps0, sps0)).2.getD j defaultSpring =
          deactivateSpring (sps0.getD j defaultSpring)) ∧
      (∀ j, ¬ touchedBelow mousePos ps0 sps0 k j →
        ((List.range k).foldl (hmiStep mousePos) (ps0, sps0)).2.getD j defaultSpring =
          sps0.getD j defaultSpring) := by
  intro k
  induction k with
  | zero =>
    refine ⟨rfl, ?_, ?_, ?_, ?_⟩
    · intro i hi _
      exact absurd hi (Nat.not_lt_zero i)
    · intro i _
      rfl
    · intro j hj
      obtain ⟨i, hi, _⟩ := hj
      exact absurd hi (Nat.not_lt_zero i)
    · intro j _
      rfl
  | succ k ih =>
    obtain ⟨ihlen, ihPa, ihPb, ihSa, ihSb⟩ := ih
    rw [List.range_succ, List.foldl_append, List.foldl_cons, List.foldl_nil]
    set st := (List.range k).foldl (hmiStep mousePos) (ps0, sps0) with hst
    have hslot : st.1.getD k defaultParticle = ps0.getD k defaultParticle :=
      ihPb k (fun hc => absurd hc.1 (lt_irrefl k))
    simp only [hmiStep, hslot]
    split_ifs with hact hdist
    · -- slot k inactive: iteration is a no-op and k does not trigger
      have hntrig : ¬ hmiTriggers mousePos ps0 k := fun ht => by
        rw [ht.1] at hact
        exact absurd hact (by decide)
      refine ⟨ihlen, ?_, ?_, ?_, ?_⟩
      · intro i hi ht
        rcases Nat.lt_succ_iff_lt_or_eq.mp hi with hi' | hi'
        · exact ihPa i hi' ht
        · subst hi'
          exact absurd ht hntrig
      · intro i hni
        exact ihPb i (fun hc => hni ⟨Nat.lt_succ_of_lt hc.1, hc.2⟩)
      · intro j hj
        obtain ⟨i, hi, ht, hend⟩ := hj
        rcases Nat.lt_succ_iff_lt_or_eq.mp hi with hi' | hi'
        · exact ihSa j ⟨i, hi', ht, hend⟩
        · subst hi'
          exact absurd ht hntrig
      · intro j hnj
        exact ihSb j (fun ⟨i, hi, ht, hend⟩ => hnj ⟨i, Nat.lt_succ_of_lt hi, ht, hend⟩)
    · -- slot k active and within the tear radius: it triggers
      have htrig : hmiTriggers mousePos ps0 k := by
        refine ⟨?_, hdist⟩
        cases hv : (ps0.getD k defaultParticle).active
        · exact absurd hv hact
        · rfl
      have hklen : k < st.1.length := by
        rw [ihlen]
        exact hmiTriggers_lt mousePos ps0 k htrig
      have hmapD : ∀ j, (st.2.map fun sp =>
          if sp.particle1 = k ∨ sp.particle2 = k then { sp with active := false } else sp).getD
            j defaultSpring =
          (if (st.2.getD j defaultSpring).particle1 = k ∨
              (st.2.getD j defaultSpring).particle2 = k
            then { st.2.getD j defaultSpring with active := false }
            else st.2.getD j defaultSpring) := by
        intro j
        exact getD_map_self
          (fun sp => if sp.particle1 = k ∨ sp.particle2 = k
            then { sp with active := false } else sp)
          defaultSpring (hmiSpringMap_default k) st.2 j
      refine ⟨by rw [List.length_set]; exact ihlen, ?_, ?_, ?_, ?_⟩
      · intro i hi ht
        rcases Nat.lt_succ_iff_lt_or_eq.mp hi with hi' | hi'
        · rw [getD_set]
          split_ifs with hc
          · rw [← hc.1] at hi'
            exact absurd hi' (lt_irrefl k)
          · exact ihPa i hi' ht
        · subst hi'
          rw [getD_set, if_pos ⟨rfl, hklen⟩]
          rfl
      · intro i hni
        have hik : i ≠ k := fun he => hni ⟨by rw [he]; exact Nat.lt_succ_self k, by rw [he]; exact htrig⟩
        rw [getD_set]
        split_ifs with hc
        · exact absurd hc.1.symm hik
        · exact ihPb i (fun hcc => hni ⟨Nat.lt_succ_of_lt hcc.1, hcc.2⟩)
      · intro j hj
        rw [hmapD j]
        by_cases hold : touchedBelow mousePos ps0 sps0 k j
        · rw [ihSa j hold]
          simp only [deactivateSpring]
          split_ifs <;> rfl
        · have hstj := ihSb j hold
          obtain ⟨i, hi, ht, hend⟩ := hj
          rcases Nat.lt_succ_iff_lt_or_eq.mp hi with hi' | hi'
          · exact absurd ⟨i, hi', ht, hend⟩ hold
          · subst hi'
            rw [hstj, if_pos hend]
            rfl
      · intro j hnj
        rw [hmapD j]
        have hold : ¬ touchedBelow mousePos ps0 sps0 k j :=
          fun ⟨i, hi, ht, hend⟩ => hnj ⟨i, Nat.lt_succ_of_lt hi, ht, hend⟩
        have hnend : ¬ (((sps0.getD j defaultSpring).particle1 = k) ∨
            ((sps0.getD j defaultSpring).particle2 = k)) :=
          fun hend => hnj ⟨k, Nat.lt_succ_self k, htrig, hend⟩
        rw [ihSb j hold, if_neg hnend]
    · -- slot k active but out of radius: no-op, k does not trigger
      have hntrig : ¬ hmiTriggers mousePos ps0 k := fun ht => hdist ht.2
      refine ⟨ihlen, ?_, ?_, ?_, ?_⟩
      · intro i hi ht
        rcases Nat.lt_succ_iff_lt_or_eq.mp hi with hi' | hi'
        · exact ihPa i hi' ht
        · subst hi'
          exact absurd ht hntrig
      · intro i hni
        exact ihPb i (fun hc => hni ⟨Nat.lt_succ_of_lt hc.1, hc.2⟩)
      · intro j hj
        obtain ⟨i, hi, ht, hend⟩ := hj
        rcases Nat.lt_succ_iff_lt_or_eq.mp hi with hi' | hi'
        · exact ihSa j ⟨i, hi', ht, hend⟩
        · subst hi'
          exact absurd ht hntrig
      · intro j hnj
        exact ihSb j (fun ⟨i, hi, ht, hend⟩ => hnj ⟨i, Nat.lt_succ_of_lt hi, ht, hend⟩)

/-- The length-bounded trigger set coincides with "some endpoint triggers". -/
theorem touchedBelow_length_iff (mousePos : Vec3) (ps : List Particle) (sps : List Spring)
    (j : ℕ) :
    touchedBelow mousePos ps sps ps.length j ↔
      hmiTriggers mousePos ps ((sps.getD j defaultSpring).particle1) ∨
      hmiTriggers mousePos ps ((sps.getD j defaultSpring).particle2) := by
  constructor
  · rintro ⟨i, _, ht, hend | hend⟩
    · left
      rw [hend]
      exact ht
    · right
      rw [hend]
      exact ht
  · rintro (ht | ht)
    · exact ⟨_, hmiTriggers_lt _ _ _ ht, ht, Or.inl rfl⟩
    · exact ⟨_, hmiTriggers_lt _ _ _ ht, ht, Or.inr rfl⟩

/-! Claim C8. -/

/-- C8: with tearing false, handleMouseInteraction is a no-op; with tearing
true it clears the active flag of exactly those particles that were active
and within 0.08 of the pointer (leaving every other field and every other
particle unchanged), clears the active flag of exactly those springs having
such a particle as an endpoint (others unchanged), and touches nothing else
(e.g. the sphere list). -/
theorem C8_mouse_interaction (s : ClothSystem) (mousePos : Vec3) :
    (s.handleMouseInteraction mousePos false = s) ∧
    (∀ i, hmiTriggers mousePos s.particles i →
      (s.handleMouseInteraction mousePos true).particles.getD i defaultParticle =
        deactivateParticle (s.particles.getD i defaultParticle)) ∧
    (∀ i, ¬ hmiTriggers mousePos s.particles i →
      (s.handleMouseInteraction mousePos true).particles.getD i defaultParticle =
        s.particles.getD i defaultParticle) ∧
    (∀ j, (hmiTriggers mousePos s.particles ((s.springs.getD j defaultSpring).particle1) ∨
           hmiTriggers mousePos s.particles ((s.springs.getD j defaultSpring).particle2)) →
      (s.handleMouseInteraction mousePos true).springs.getD j defaultSpring =
        deactivateSpring (s.springs.getD j defaultSpring)) ∧
    (∀ j, ¬ (hmiTriggers mousePos s.particles ((s.springs.getD j defaultSpring).particle1) ∨
             hmiTriggers mousePos s.particles ((s.springs.getD j defaultSpring).particle2)) →
      (s.handleMouseInteraction mousePos true).springs.getD j defaultSpring =
        s.springs.getD j defaultSpring) ∧
    (s.handleMouseInteraction mousePos true).spheres = s.spheres := by
  obtain ⟨hlen, hPa, hPb, hSa, hSb⟩ :=
    hmiFold_characterize mousePos s.particles s.springs s.particles.length
  refine ⟨rfl, ?_, ?_, ?_, ?_, rfl⟩
  · intro i ht
    exact hPa i (hmiTriggers_lt _ _ _ ht) ht
  · intro i hnt
    exact hPb i (fun hc => hnt hc.2)
  · intro j hj
    exact hSa j ((touchedBelow_length_iff mousePos s.particles s.springs j).mpr hj)
  · intro j hnj
    exact hSb j (fun ht => hnj ((touchedBelow_length_iff mousePos s.particles s.springs j).mp ht))

/-- Witness for C8 at the concrete torn state with the pointer on particle 0:
tearing=false is a no-op; particle 0 (active, at distance 0) is deactivated,
particle 1 (already inactive, hence not triggering) is untouched, and the
spring with endpoint 0 is deactivated. -/
theorem C8_mouse_interaction_witness :
    (ClothSystem.handleMouseInteraction ⟨0, 0, 0⟩ false tornState = tornState) ∧
    ((ClothSystem.handleMouseInteraction ⟨0, 0, 0⟩ true tornState).particles.getD 0
        defaultParticle =
      deactivateParticle (tornState.particles.getD 0 defaultParticle)) ∧
    ((ClothSystem.handleMouseInteraction ⟨0, 0, 0⟩ true tornState).particles.getD 1
        defaultParticle = tornState.particles.getD 1 defaultParticle) ∧
    ((ClothSystem.handleMouseInteraction ⟨0, 0, 0⟩ true tornState).springs.getD 0
        defaultSpring =
      deactivateSpring (tornState.springs.getD 0 defaultSpring)) := by
  obtain ⟨h0, hPa, hPb, hSa, hSb, hsph⟩ := C8_mouse_interaction tornState ⟨0, 0, 0⟩
  have htrig0 : hmiTriggers ⟨0, 0, 0⟩ tornState.particles 0 := by
    refine ⟨rfl, ?_⟩
    show Vec3.norm ((⟨0, 0, 0⟩ : Vec3) - ⟨0, 0, 0⟩) < 0.08
    rw [Vec3.norm_eq_of_sq _ 0 (by norm_num) (by simp [Vec3.dot])]
    norm_num
  have hntrig1 : ¬ hmiTriggers ⟨0, 0, 0⟩ tornState.particles 1 := by
    intro ht
    exact absurd ht.1 (by decide)
  exact ⟨h0, hPa 0 htrig0, hPb 1 hntrig1, hSa 0 (Or.inl htrig0)⟩

/-! Mesh derivation: the index buffer references only active particles. -/

theorem some_getD_of_ne_none {o : Option ℕ} (h : o ≠ none) : o = some (o.getD 0) := by
  cases o with
  | none => exact absurd rfl h
  | some w => rfl

/-- Every index produced by one quad is the remap value of an active corner. -/
theorem quadIndices_active (W : ℕ) (ps : List Particle) (g2v : List (Option ℕ)) (x y : ℕ) :
    ∀ v ∈ quadIndices W ps g2v x y,
      ∃ g, g2v.getD g none = some v ∧ (ps.getD g defaultParticle).active = true := by
  intro v hv
  simp only [quadIndices] at hv
  split at hv
  case isFalse => simp at hv
  case isTrue hguard =>
    obtain ⟨h1, h2, h3, h4, h5, h6, h7, h8⟩ := hguard
    simp only [List.mem_cons, List.not_mem_nil, or_false] at hv
    rcases hv with rfl | rfl | rfl | rfl | rfl | rfl
    · exact ⟨y * W + x, some_getD_of_ne_none h5, h1⟩
    · exact ⟨(y + 1) * W + x, some_getD_of_ne_none h7, h3⟩
    · exact ⟨y * W + (x + 1), some_getD_of_ne_none h6, h2⟩
    · exact ⟨y * W + (x + 1), some_getD_of_ne_none h6, h2⟩
    · exact ⟨(y + 1) * W + x, some_getD_of_ne_none h7, h3⟩
    · exact ⟨(y + 1) * W + (x + 1), some_getD_of_ne_none h8, h4⟩

theorem meshIndices_active (W H : ℕ) (ps : List Particle) (g2v : List (Option ℕ)) :
    ∀ v ∈ meshIndices W H ps g2v,
      ∃ g, g2v.getD g none = some v ∧ (ps.getD g defaultParticle).active = true := by
  intro v hv
  simp only [meshIndices, List.mem_flatMap] at hv
  obtain ⟨y, _, x, _, hx⟩ := hv
  exact quadIndices_active W ps g2v x y v hx

/-! Claim C7. -/

/-- C7: after every rebuild of the derived mesh, every entry of the triangle
index buffer is the compacted vertex index of a currently-active particle,
and a grid quad with any inactive corner contributes no triangle at all; the
index buffer is exactly the concatenation of the per-quad contributions. -/
theorem C7_mesh_consistency :
    (∀ (s : ClothSystem) (v : ℕ),
      v ∈ (s.updateVertexData).indices → vertexOfActive s v) ∧
    (∀ (W : ℕ) (ps : List Particle) (g2v : List (Option ℕ)) (x y : ℕ),
      ((ps.getD (y * W + x) defaultParticle).active = false ∨
       (ps.getD (y * W + (x + 1)) defaultParticle).active = false ∨
       (ps.getD ((y + 1) * W + x) defaultParticle).active = false ∨
       (ps.getD ((y + 1) * W + (x + 1)) defaultParticle).active = false) →
      quadIndices W ps g2v x y = []) ∧
    (∀ s : ClothSystem, (s.updateVertexData).indices =
      meshIndices s.gridWidth s.gridHeight s.particles
        (buildVertices s.gridWidth s.gridHeight s.particles).g2v) := by
  refine ⟨?_, ?_, fun s => rfl⟩
  · intro s v hv
    have hv' : v ∈ meshIndices s.gridWidth s.gridHeight s.particles
        (buildVertices s.gridWidth s.gridHeight s.particles).g2v := hv
    obtain ⟨g, hg, ha⟩ := meshIndices_active _ _ _ _ v hv'
    exact ⟨g, hg, ha⟩
  · intro W ps g2v x y hdead
    simp only [quadIndices]
    rw [if_neg]
    rintro ⟨h1, h2, h3, h4, -, -, -, -⟩
    rcases hdead with h | h | h | h
    · rw [h1] at h; cases h
    · rw [h2] at h; cases h
    · rw [h3] at h; cases h
    · rw [h4] at h; cases h

/-- Witness for C7: on a fresh 2-by-2 grid the first index of the (nonempty)
buffer belongs to an active particle, and the quad of a concrete 2-by-2 state
with a torn corner contributes no triangles. -/
theorem C7_mesh_consistency_witness :
    (0 ∈ ((ClothSystem.init zeroStream 2 2 1 1).updateVertexData).indices ∧
      vertexOfActive (ClothSystem.init zeroStream 2 2 1 1) 0) ∧
    ((tornQuadState.particles.getD 0 defaultParticle).active = false ∧
      quadIndices 2 tornQuadState.particles
        (buildVertices 2 2 tornQuadState.particles).g2v 0 0 = []) := by
  refine ⟨⟨?_, C7_mesh_consistency.1 _ 0 ?_⟩,
    ⟨rfl, C7_mesh_consistency.2.1 2 _ _ 0 0 (Or.inl rfl)⟩⟩ <;> decide

end

end ClothSim
